import Mathlib

/-!
# Cantera: species-thermo factory and base `Integrator`

A shallow embedding of `Cantera/src/SpeciesThermoFactory.cpp` and of the default
methods of `Cantera/src/Integrator.h`, followed by theorems about them.

* C++ `int` values are `Int`: the flags are 0 or 1 and the type codes are
  distinct powers of two that fit an `int`, so the dispatch sum
  `NASA*a + SHOMATE*b + SIMPLE*c` stays below `2^31` and no arithmetic wraps.
* A C++ function that may throw returns `Except`; `getSpeciesThermoTypes`, which
  writes its flags through references before it may throw, returns the outcome
  together with the flags as they stand when it returns or throws.
-/

namespace Cantera

/-! ## The species specification tree -/

/-- Modelled from the spec: the structured species specification node (`xml.h` is
not among the sources). A node has a tag name, attributes and child nodes. -/
inductive XML_Node where
  | mk (name : String) (attribs : List (String × String)) (children : List XML_Node)

namespace XML_Node

/-- Modelled from the spec: the tag name of a node. -/
def name : XML_Node → String
  | mk n _ _ => n

/-- Modelled from the spec: the attribute list of a node. -/
def attribs : XML_Node → List (String × String)
  | mk _ a _ => a

/-- Modelled from the spec: the direct children of a node, in document order. -/
def children : XML_Node → List XML_Node
  | mk _ _ c => c

/-- Modelled from the spec: attribute lookup by key (`attrib(key)` and
`operator[]`), the empty string when the attribute is not there. -/
def attrib (n : XML_Node) (key : String) : String :=
  match n.attribs.find? (fun kv => kv.1 == key) with
  | some kv => kv.2
  | none => ""

/-- Modelled from the spec: child lookup by name (`child(name)`); `none` stands
for the lookup failure of a node without such a child. -/
def child (n : XML_Node) (cname : String) : Option XML_Node :=
  n.children.find? (fun c => c.name == cname)

/-- Modelled from the spec: `hasChild(name)`, whether `child(name)` finds a node. -/
def hasChild (n : XML_Node) (cname : String) : Bool :=
  (n.child cname).isSome

/-- Modelled from the spec: `getChildren(name, out)`, all direct children with
the given tag name, in order. -/
def getChildren (n : XML_Node) (cname : String) : List XML_Node :=
  n.children.filter (fun c => c.name == cname)

end XML_Node

/-! ## Managers, errors, type codes -/

/-- The single-parameterization managers (`NasaThermo.h`, `ShomateThermo.h`,
`SimpleThermo.h`); only their identity matters here. -/
inductive SingleThermo where
  | NasaThermo
  | ShomateThermo
  | SimpleThermo
  deriving DecidableEq, Repr

/-- The object `newSpeciesThermo` returns: one of the single managers, or the
template `SpeciesThermoDuo<T1, T2>` at two single managers. -/
inductive SpeciesThermo where
  | single (t : SingleThermo)
  | SpeciesThermoDuo (t1 t2 : SingleThermo)
  deriving DecidableEq, Repr

/-- The exceptions thrown in the code embedded here, with their constructor arguments. -/
inductive CanteraException where
  | CanteraError (proc msg : String)
  | UnknownSpeciesThermoModel (proc spName msg : String)
  | UnknownSpeciesThermo (proc : String) (type : Int)
  | XML_NoChild (parent cname : String)
  deriving DecidableEq, Repr

instance {ε α : Type} [DecidableEq ε] [DecidableEq α] : DecidableEq (Except ε α)
  | .ok a, .ok b => if h : a = b then isTrue (by rw [h]) else isFalse (by simpa using h)
  | .error a, .error b => if h : a = b then isTrue (by rw [h]) else isFalse (by simpa using h)
  | .ok _, .error _ => isFalse (by simp)
  | .error _, .ok _ => isFalse (by simp)

/-- The type codes of `speciesThermoTypes.h`, which is not among the sources:
they are parameters of the embedding. -/
structure ThermoTypes where
  NASA : Int
  SHOMATE : Int
  SIMPLE : Int
  deriving DecidableEq, Repr

/-- The spec's condition on the codes: distinct powers of two. -/
def ThermoTypes.DistinctPowers (c : ThermoTypes) : Prop :=
  ∃ i j k : Nat, i ≠ j ∧ i ≠ k ∧ j ≠ k ∧
    c.NASA = 2 ^ i ∧ c.SHOMATE = 2 ^ j ∧ c.SIMPLE = 2 ^ k

/-- The codes used for concrete evaluations. -/
def sampleTypes : ThermoTypes := ⟨4, 8, 32⟩

/-- The three `int` flags `has_nasa`, `has_shomate`, `has_simple`. -/
structure Flags where
  has_nasa : Int
  has_shomate : Int
  has_simple : Int
  deriving DecidableEq, Repr

/-- The initial flags `inasa = 0, ishomate = 0, isimple = 0` of the entry points. -/
def Flags.zero : Flags := ⟨0, 0, 0⟩

/-! ## `SpeciesThermoFactory.cpp` -/

/-- One pass of the body of the `for` loop in `getSpeciesThermoTypes` on the
species `spNode`: the exception thrown there, if any, and the flags as written so far. -/
def speciesBody (spNode : XML_Node) (f : Flags) : Except CanteraException Unit × Flags :=
  if spNode.hasChild "thermo" then
    match spNode.child "thermo" with
    | none => (.error (.XML_NoChild spNode.name "thermo"), f)
    | some th =>
      let f := if th.hasChild "NASA" then { f with has_nasa := 1 } else f
      let f := if th.hasChild "Shomate" then { f with has_shomate := 1 } else f
      let f := if th.hasChild "const_cp" then { f with has_simple := 1 } else f
      if th.hasChild "poly" then
        match th.child "poly" with
        | none => (.error (.XML_NoChild th.name "poly"), f)
        | some p =>
          if p.attrib "order" == "1" then (.ok (), { f with has_simple := 1 })
          else (.error (.CanteraError "newSpeciesThermo"
                  "poly with order > 1 not yet supported"), f)
      else (.ok (), f)
  else
    (.error (.UnknownSpeciesThermoModel "getSpeciesThermoTypes:"
        (spNode.attrib "name") "missing"), f)

/-- The `for (n = 0; n < ns; n++)` loop of `getSpeciesThermoTypes` over the
species still to visit; a throw in the body leaves the loop. -/
def speciesLoop : List XML_Node → Flags → Except CanteraException Unit × Flags
  | [], f => (.ok (), f)
  | spNode :: rest, f =>
    match speciesBody spNode f with
    | (.ok (), f1) => speciesLoop rest f1
    | (.error e, f1) => (.error e, f1)

/-- The function `getSpeciesThermoTypes(node, has_nasa, has_shomate, has_simple)`:
the outcome and the value of the three reference arguments afterwards. -/
def getSpeciesThermoTypes (node : XML_Node) (f : Flags) : Except CanteraException Unit × Flags :=
  speciesLoop (node.getChildren "species") f

/-- The expression `NASA*inasa + SHOMATE*ishomate + SIMPLE*isimple`. -/
def typeSum (c : ThermoTypes) (f : Flags) : Int :=
  c.NASA * f.has_nasa + c.SHOMATE * f.has_shomate + c.SIMPLE * f.has_simple

/-- The function `SpeciesThermoFactory::newSpeciesThermo(int type)`. -/
def newSpeciesThermo (c : ThermoTypes) (type : Int) : Except CanteraException SpeciesThermo :=
  if type = c.NASA then .ok (.single .NasaThermo)
  else if type = c.SHOMATE then .ok (.single .ShomateThermo)
  else if type = c.SIMPLE then .ok (.single .SimpleThermo)
  else if type = c.NASA + c.SHOMATE then .ok (.SpeciesThermoDuo .NasaThermo .ShomateThermo)
  else if type = c.NASA + c.SIMPLE then .ok (.SpeciesThermoDuo .NasaThermo .SimpleThermo)
  else .error (.UnknownSpeciesThermo "SpeciesThermoFactory::newSpeciesThermo" type)

/-- The function `SpeciesThermoFactory::newSpeciesThermo(XML_Node* node)`. -/
def newSpeciesThermoNode (c : ThermoTypes) (node : XML_Node) :
    Except CanteraException SpeciesThermo :=
  match getSpeciesThermoTypes node Flags.zero with
  | (.error e, _) => .error e
  | (.ok (), f) => newSpeciesThermo c (typeSum c f)

/-- The loop of `newSpeciesThermo(vector<XML_Node*> nodes)`: any throw of
`getSpeciesThermoTypes` leaves the function. -/
def strictLoop : List XML_Node → Flags → Except CanteraException Flags
  | [], f => .ok f
  | node :: rest, f =>
    match getSpeciesThermoTypes node f with
    | (.ok (), f1) => strictLoop rest f1
    | (.error e, _) => .error e

/-- The function `SpeciesThermoFactory::newSpeciesThermo(vector<XML_Node*> nodes)`. -/
def newSpeciesThermoNodes (c : ThermoTypes) (nodes : List XML_Node) :
    Except CanteraException SpeciesThermo :=
  match strictLoop nodes Flags.zero with
  | .error e => .error e
  | .ok f => newSpeciesThermo c (typeSum c f)

/-- The loop of `newSpeciesThermoOpt`: `catch (UnknownSpeciesThermoModel)` with an
empty handler resumes with the next collection, the flags staying as the
interrupted call left them; any other exception leaves the function. -/
def optLoop : List XML_Node → Flags → Except CanteraException Flags
  | [], f => .ok f
  | node :: rest, f =>
    match getSpeciesThermoTypes node f with
    | (.ok (), f1) => optLoop rest f1
    | (.error (.UnknownSpeciesThermoModel _ _ _), f1) => optLoop rest f1
    | (.error e, _) => .error e

/-- The function `SpeciesThermoFactory::newSpeciesThermoOpt(vector<XML_Node*> nodes)`. -/
def newSpeciesThermoOpt (c : ThermoTypes) (nodes : List XML_Node) :
    Except CanteraException SpeciesThermo :=
  match optLoop nodes Flags.zero with
  | .error e => .error e
  | .ok f => newSpeciesThermo c (typeSum c f)

/-! ## Sample specification trees -/

/-- A `species` node with the given name and a `thermo` child holding `tags`. -/
def mkSpecies (nm : String) (tags : List XML_Node) : XML_Node :=
  .mk "species" [("name", nm)] [.mk "thermo" [] tags]

/-- A `species` node with the given name and no `thermo` child. -/
def mkBareSpecies (nm : String) : XML_Node :=
  .mk "species" [("name", nm)] []

/-- A tag node without attributes or children. -/
def mkTag (t : String) : XML_Node := .mk t [] []

/-- A `poly` tag with the given `order` attribute. -/
def mkPoly (order : String) : XML_Node := .mk "poly" [("order", order)] []

/-- A `speciesData` collection of the given species. -/
def mkData (sp : List XML_Node) : XML_Node := .mk "speciesData" [] sp

/-- The collection of the spec's example: H2 with NASA, O2 with Shomate. -/
def exampleH2O2 : XML_Node :=
  mkData [mkSpecies "H2" [mkTag "NASA"], mkSpecies "O2" [mkTag "Shomate"]]

/-! ## What a species declares (the words of the spec) -/

/-- The species has a `thermo` sub-structure. -/
def hasThermo (s : XML_Node) : Bool := s.hasChild "thermo"

/-- The `thermo` sub-structure of the species holds the tag `t`. -/
def hasTag (s : XML_Node) (t : String) : Bool :=
  match s.child "thermo" with
  | some th => th.hasChild t
  | none => false

/-- The declared order of the `poly` tag of the species, when it has one. -/
def polyOrder (s : XML_Node) : Option String :=
  match s.child "thermo" with
  | some th => (th.child "poly").map (fun p => p.attrib "order")
  | none => none

/-- The species has a `poly` tag whose order is not the string "1". -/
def badPoly (s : XML_Node) : Bool :=
  match polyOrder s with
  | some o => !(o == "1")
  | none => false

/-- The species declares the NASA parameterization. -/
def declaresNASA (s : XML_Node) : Bool := hasTag s "NASA"

/-- The species declares the Shomate parameterization. -/
def declaresShomate (s : XML_Node) : Bool := hasTag s "Shomate"

/-- The species declares the Simple parameterization: a `const_cp` tag, or a
`poly` tag of order "1". -/
def declaresSimple (s : XML_Node) : Bool :=
  hasTag s "const_cp" || polyOrder s == some "1"

/-- The number of recognized tags (NASA, Shomate, const_cp, poly) in the `thermo`
sub-structure of the species. -/
def tagCount (s : XML_Node) : Nat :=
  (["NASA", "Shomate", "const_cp", "poly"].filter (fun t => hasTag s t)).length

/-- The species has a `thermo` sub-structure carrying exactly one recognized tag,
a `poly` tag counting as recognized at order "1" only. -/
def Recognized (s : XML_Node) : Prop :=
  hasThermo s = true ∧ tagCount s = 1 ∧ badPoly s = false

/-- The flags `f` with each flag set to 1 where the matching boolean holds. -/
def Flags.raise (f : Flags) (a b c : Bool) : Flags :=
  ⟨if a then 1 else f.has_nasa, if b then 1 else f.has_shomate,
   if c then 1 else f.has_simple⟩

/-- The exception of a species without `thermo`. -/
def missingError (s : XML_Node) : CanteraException :=
  .UnknownSpeciesThermoModel "getSpeciesThermoTypes:" (s.attrib "name") "missing"

/-- The exception of a `poly` tag whose order is not "1". -/
def polyError : CanteraException :=
  .CanteraError "newSpeciesThermo" "poly with order > 1 not yet supported"

/-- The flags `f` raised by everything the species of `l` declare. -/
def Flags.raiseBy (f : Flags) (l : List XML_Node) : Flags :=
  f.raise (l.any declaresNASA) (l.any declaresShomate) (l.any declaresSimple)

/-- The dispatch table in the words of the spec, on the set of parameterizations
present (NASA, Shomate, Simple): the manager assigned to the set, `none` for the
sets that are not constructible. -/
def dispatchTable : Bool → Bool → Bool → Option SpeciesThermo
  | true, false, false => some (.single .NasaThermo)
  | false, true, false => some (.single .ShomateThermo)
  | false, false, true => some (.single .SimpleThermo)
  | true, true, false => some (.SpeciesThermoDuo .NasaThermo .ShomateThermo)
  | true, false, true => some (.SpeciesThermoDuo .NasaThermo .SimpleThermo)
  | _, _, _ => none

/-- The 0/1 value of a flag. -/
def flagOf (b : Bool) : Int := if b then 1 else 0

/-- The flags of a set of parameterizations present. -/
def flagsOf (a b c : Bool) : Flags := ⟨flagOf a, flagOf b, flagOf c⟩

/-- The exception of the `default:` label of `newSpeciesThermo(int)`. -/
def unsupportedError (type : Int) : CanteraException :=
  .UnknownSpeciesThermo "SpeciesThermoFactory::newSpeciesThermo" type

/-- Each of the three flags is 0 or 1. -/
def Flags.IsBool (f : Flags) : Prop :=
  (f.has_nasa = 0 ∨ f.has_nasa = 1) ∧ (f.has_shomate = 0 ∨ f.has_shomate = 1) ∧
    (f.has_simple = 0 ∨ f.has_simple = 1)

instance (s : XML_Node) : Decidable (Recognized s) := by
  unfold Recognized
  infer_instance

/-- A collection whose first species has a `poly` of order "2" and whose second
species has no `thermo`. -/
def polyThenBare : XML_Node :=
  mkData [mkSpecies "CH4" [mkPoly "2"], mkBareSpecies "AR"]

/-- A collection with a NASA species followed by a species without `thermo`. -/
def nasaThenBare : XML_Node :=
  mkData [mkSpecies "H2" [mkTag "NASA"], mkBareSpecies "AR"]

/-- A collection with one Shomate species. -/
def shomateOnly : XML_Node := mkData [mkSpecies "O2" [mkTag "Shomate"]]

/-- A collection with one NASA species. -/
def nasaOnly : XML_Node := mkData [mkSpecies "H2" [mkTag "NASA"]]

/-- A collection whose first species has no `thermo` and whose second species has
a `poly` of order "2". -/
def bareThenPoly : XML_Node :=
  mkData [mkBareSpecies "AR", mkSpecies "CH4" [mkPoly "2"]]

/-- A collection with a NASA species and a species whose `thermo` holds only a
tag that is none of NASA, Shomate, const_cp, poly. -/
def nasaAndUntagged : XML_Node :=
  mkData [mkSpecies "H2" [mkTag "NASA"], mkSpecies "AR" [mkTag "Mu0"]]

/-- Scanning the species list `l` reaches a `poly` of order other than "1": some
species has one, and every species before it has a `thermo` sub-structure. -/
def PolyReached (l : List XML_Node) : Prop :=
  ∃ pre s post, l = pre ++ s :: post ∧ (∀ x ∈ pre, hasThermo x = true) ∧ badPoly s = true

/-! ## `Integrator.h` -/

/-- The type `doublereal` of `ct_defs.h`, a C++ `double`. The code embedded here
only stores, passes and returns such values and the constant 0.0, and never computes
with them; rational numbers stand for them, so that two values can be told apart. -/
abbrev doublereal := ℚ

/-- The enumeration `MethodType`. -/
inductive MethodType where
  | BDF_Method
  | Adams_Method
  deriving DecidableEq, Repr

/-- The enumeration `IterType`. -/
inductive IterType where
  | Newton_Iter
  | Functional_Iter
  deriving DecidableEq, Repr

/-- The data of a base-class `Integrator` object: its only member `m_dummy`, which
no constructor initializes, so that a fresh object holds any value. -/
structure Integrator where
  m_dummy : doublereal

/-- What a base-class method can read and write: the object it is called on and the
process-wide log, as the list of the strings written to it so far. -/
structure World where
  self : Integrator
  log : List String

/-- A C++ computation on a `World`: it returns a value and a new state, or throws. -/
abbrev CppM := StateT World (Except CanteraException)

/-- Modelled from the spec: `writelog(msg)` of `global.h`, which is not among the
sources, hands one string to the process-wide log. -/
def writelog (msg : String) : CppM Unit :=
  modify (fun w => { w with log := w.log ++ [msg] })

namespace Integrator

/-- The private method `warn(msg)`. -/
def warn (msg : String) : CppM Unit :=
  writelog (">>>> Warning: method " ++ msg ++ " of base class "
    ++ "Integrator called. Nothing done.\n")

/-- The default `setTolerances(reltol, n, abstol)`. -/
def setTolerancesArray (_reltol : doublereal) (_n : Int) (_abstol : List doublereal) :
    CppM Unit := warn "setTolerances"

/-- The default `setTolerances(reltol, abstol)`. -/
def setTolerances (_reltol _abstol : doublereal) : CppM Unit := warn "setTolerances"

/-- The default `setSensitivityTolerances(reltol, abstol)`, with an empty body. -/
def setSensitivityTolerances (_reltol _abstol : doublereal) : CppM Unit := pure ()

/-- The default `setProblemType(probtype)`. -/
def setProblemType (_probtype : Int) : CppM Unit := warn "setProblemType"

/-- The default `initialize(t0, func)` (that name is a keyword here); `FuncEval` is
the class of `FuncEval.h`. -/
def initializeWith {FuncEval : Type} (_t0 : doublereal) (_func : FuncEval) : CppM Unit :=
  warn "initialize"

/-- The default `reinitialize(t0, func)`. -/
def reinitializeWith {FuncEval : Type} (_t0 : doublereal) (_func : FuncEval) : CppM Unit :=
  warn "reinitialize"

/-- The default `integrate(tout)`. -/
def integrate (_tout : doublereal) : CppM Unit := warn "integrate"

/-- The default `step(tout)`. -/
def step (_tout : doublereal) : CppM doublereal := do
  warn "step"
  return 0.0

/-- The default `solution(k)`: the value of the member `m_dummy` it refers to. -/
def solution (_k : Int) : CppM doublereal := do
  warn "solution"
  return (← get).self.m_dummy

/-- The caller's statement `solution(k) = v`: the call of the default `solution(k)`,
then the store of `v` through the reference it returned, which refers to `m_dummy`. -/
def solutionAssign (_k : Int) (v : doublereal) : CppM Unit := do
  warn "solution"
  modify (fun w => { w with self := { w.self with m_dummy := v } })

/-- A caller that reads `solution(k1)`, writes `v` through the reference returned by
`solution(k2)`, and reads `solution(k3)`: the two values read. -/
def readWriteRead (k1 k2 k3 : Int) (v : doublereal) : CppM (doublereal × doublereal) := do
  let a ← solution k1
  solutionAssign k2 v
  let b ← solution k3
  return (a, b)

/-- The default `solution()`: the null pointer, as `none`. -/
def solutionArray : CppM (Option (List doublereal)) := do
  warn "solution"
  return none

/-- The default `nEquations()`. -/
def nEquations : CppM Int := do
  warn "nEquations"
  return 0

/-- The default `nEvals()`. -/
def nEvals : CppM Int := do
  warn "nEvals"
  return 0

/-- The default `setMaxOrder(n)`. -/
def setMaxOrder (_n : Int) : CppM Unit := warn "setMaxorder"

/-- The default `setMethod(t)`. -/
def setMethod (_t : MethodType) : CppM Unit := warn "setMethodType"

/-- The default `setIterator(t)`. -/
def setIterator (_t : IterType) : CppM Unit := warn "setInterator"

/-- The default `setMaxStepSize(hmax)`. -/
def setMaxStepSize (_hmax : doublereal) : CppM Unit := warn "setMaxStepSize"

/-- The default `setMinStepSize(hmin)`. -/
def setMinStepSize (_hmin : doublereal) : CppM Unit := warn "setMinStepSize"

/-- The default `setMaxSteps(nmax)`. -/
def setMaxSteps (_nmax : Int) : CppM Unit := warn "setMaxStep"

/-- The default `nSensParams()`. -/
def nSensParams : CppM Int := do
  warn "nSensParams()"
  return 0

/-- The default `sensitivity(k, p)`. -/
def sensitivity (_k _p : Int) : CppM doublereal := do
  warn "sensitivity"
  return 0.0

end Integrator

/-- The string `pat` occurs in the string `s` as a contiguous piece. -/
def occursIn (pat s : String) : Bool :=
  s.toList.tails.any (fun t => pat.toList.isPrefixOf t)

/-- The string is one line of a log: it ends in a newline and holds no other. -/
def isOneLine (s : String) : Bool :=
  s.toList.count (Char.ofNat 10) == 1 && s.toList.getLast? == some (Char.ofNat 10)

/-- The macro `DIAG`. -/
def DIAG : Nat := 1

/-- The macro `DENSE`. -/
def DENSE : Nat := 2

/-- The macro `NOJAC`. -/
def NOJAC : Nat := 4

/-- The macro `JAC`. -/
def JAC : Nat := 8

/-- The macro `GMRES`. -/
def GMRES : Nat := 16

/-- The five problem-type flags. -/
def problemFlags : List Nat := [DIAG, DENSE, NOJAC, JAC, GMRES]

/-- The bitwise OR of the members of a list of flags. -/
def orAll (s : List Nat) : Nat := s.foldl (fun acc x => acc ||| x) 0

/-- The longest leading run of species of the collection that have a `thermo`
sub-structure. -/
def leadingRun (node : XML_Node) : List XML_Node :=
  (node.getChildren "species").takeWhile hasThermo

/-- The species lists of the collections, one after the other. -/
def allSpecies (nodes : List XML_Node) : List XML_Node :=
  nodes.flatMap (fun n => n.getChildren "species")

/-- Each flag of `f` is at most the same flag of `g`. -/
def Flags.le (f g : Flags) : Prop :=
  f.has_nasa ≤ g.has_nasa ∧ f.has_shomate ≤ g.has_shomate ∧ f.has_simple ≤ g.has_simple

/-! ## Lemmas on the classifier -/

theorem speciesBody_noThermo (s : XML_Node) (f : Flags) (h : hasThermo s = false) :
    speciesBody s f = (.error (missingError s), f) := by
  simp only [hasThermo] at h
  simp [speciesBody, h, missingError]

theorem speciesBody_thermo (s : XML_Node) (f : Flags) (h : hasThermo s = true) :
    speciesBody s f =
      (if badPoly s then .error polyError else .ok (),
       f.raise (declaresNASA s) (declaresShomate s) (declaresSimple s)) := by
  have h1 : s.hasChild "thermo" = true := h
  simp only [hasThermo, XML_Node.hasChild] at h
  obtain ⟨th, hth⟩ := Option.isSome_iff_exists.mp h
  have e1 : declaresNASA s = th.hasChild "NASA" := by simp [declaresNASA, hasTag, hth]
  have e2 : declaresShomate s = th.hasChild "Shomate" := by
    simp [declaresShomate, hasTag, hth]
  have e3 : hasTag s "const_cp" = th.hasChild "const_cp" := by simp [hasTag, hth]
  have e4 : polyOrder s = (th.child "poly").map (fun p => p.attrib "order") := by
    simp [polyOrder, hth]
  simp only [speciesBody, h1, hth, badPoly, declaresSimple, e1, e2, e3, e4, polyError,
    Flags.raise, if_true]
  generalize th.hasChild "NASA" = a
  generalize th.hasChild "Shomate" = b
  generalize th.hasChild "const_cp" = c
  cases hp : th.child "poly" with
  | none =>
    have hq : th.hasChild "poly" = false := by simp [XML_Node.hasChild, hp]
    cases a <;> cases b <;> cases c <;> simp [hq]
  | some p =>
    have hq : th.hasChild "poly" = true := by simp [XML_Node.hasChild, hp]
    by_cases ho : p.attrib "order" = "1"
    · cases a <;> cases b <;> cases c <;> simp [hq, ho]
    · cases a <;> cases b <;> cases c <;> simp [hq, ho]

theorem badPoly_hasThermo (s : XML_Node) (h : badPoly s = true) : hasThermo s = true := by
  simp only [badPoly, polyOrder] at h
  simp only [hasThermo, XML_Node.hasChild]
  cases hth : s.child "thermo" with
  | none => simp [hth] at h
  | some th => rfl

theorem Flags.raise_raise (f : Flags) (a b c a1 b1 c1 : Bool) :
    (f.raise a b c).raise a1 b1 c1 = f.raise (a || a1) (b || b1) (c || c1) := by
  cases a <;> cases b <;> cases c <;> cases a1 <;> cases b1 <;> cases c1 <;> rfl

theorem Flags.raiseBy_cons (f : Flags) (s : XML_Node) (l : List XML_Node) :
    f.raiseBy (s :: l)
      = (f.raise (declaresNASA s) (declaresShomate s) (declaresSimple s)).raiseBy l := by
  simp [Flags.raiseBy, Flags.raise_raise]

theorem Flags.raiseBy_append (f : Flags) (l1 l2 : List XML_Node) :
    f.raiseBy (l1 ++ l2) = (f.raiseBy l1).raiseBy l2 := by
  simp [Flags.raiseBy, Flags.raise_raise]

theorem Flags.raiseBy_perm (f : Flags) {l1 l2 : List XML_Node} (h : l1.Perm l2) :
    f.raiseBy l1 = f.raiseBy l2 := by
  have key : ∀ p : XML_Node → Bool, l1.any p = l2.any p := by
    intro p
    rw [Bool.eq_iff_iff]
    simp only [List.any_eq_true]
    exact ⟨fun ⟨x, hx, hp⟩ => ⟨x, h.mem_iff.mp hx, hp⟩,
      fun ⟨x, hx, hp⟩ => ⟨x, h.mem_iff.mpr hx, hp⟩⟩
  simp [Flags.raiseBy, key]

theorem speciesLoop_cons_noThermo (s : XML_Node) (post : List XML_Node) (f : Flags)
    (h : hasThermo s = false) :
    speciesLoop (s :: post) f = (.error (missingError s), f) := by
  simp [speciesLoop, speciesBody_noThermo s f h]

theorem speciesLoop_cons_badPoly (s : XML_Node) (post : List XML_Node) (f : Flags)
    (h : badPoly s = true) :
    speciesLoop (s :: post) f
      = (.error polyError,
          f.raise (declaresNASA s) (declaresShomate s) (declaresSimple s)) := by
  simp [speciesLoop, speciesBody_thermo s f (badPoly_hasThermo s h), h]

theorem speciesLoop_cons_good (s : XML_Node) (rest : List XML_Node) (f : Flags)
    (h : hasThermo s = true) (hb : badPoly s = false) :
    speciesLoop (s :: rest) f
      = speciesLoop rest (f.raise (declaresNASA s) (declaresShomate s) (declaresSimple s)) := by
  simp [speciesLoop, speciesBody_thermo s f h, hb]

theorem speciesLoop_append_good (pre rest : List XML_Node) (f : Flags)
    (h : ∀ x ∈ pre, hasThermo x = true ∧ badPoly x = false) :
    speciesLoop (pre ++ rest) f = speciesLoop rest (f.raiseBy pre) := by
  induction pre generalizing f with
  | nil => rfl
  | cons x pre ih =>
    have hx := h x (List.mem_cons_self x pre)
    rw [List.cons_append, speciesLoop_cons_good x _ f hx.1 hx.2, Flags.raiseBy_cons]
    exact ih _ (fun y hy => h y (List.mem_cons_of_mem x hy))

theorem speciesLoop_good (l : List XML_Node) (f : Flags)
    (h : ∀ x ∈ l, hasThermo x = true ∧ badPoly x = false) :
    speciesLoop l f = (.ok (), f.raiseBy l) := by
  have := speciesLoop_append_good l [] f h
  simpa [speciesLoop] using this

/-- The outcome of the loop on a list that has a thermo-less species `s` with
only species with `thermo` before it. -/
theorem speciesLoop_first_noThermo (pre post : List XML_Node) (s : XML_Node) (f : Flags)
    (hpre : ∀ x ∈ pre, hasThermo x = true) (hs : hasThermo s = false) :
    (speciesLoop (pre ++ s :: post) f).1
      = .error (if pre.any badPoly then polyError else missingError s) := by
  induction pre generalizing f with
  | nil => simp [speciesLoop_cons_noThermo s post f hs]
  | cons x pre ih =>
    have hx := hpre x (List.mem_cons_self x pre)
    cases hb : badPoly x with
    | true => simp [speciesLoop_cons_badPoly x _ f hb, hb]
    | false =>
      rw [List.cons_append, speciesLoop_cons_good x _ f hx hb]
      simp only [List.any_cons, hb, Bool.false_or]
      exact ih _ (fun y hy => hpre y (List.mem_cons_of_mem x hy))

/-- The outcome of the loop on a list that has a species with a bad `poly`, with
only species with `thermo` before it. -/
theorem speciesLoop_first_badPoly (pre post : List XML_Node) (s : XML_Node) (f : Flags)
    (hpre : ∀ x ∈ pre, hasThermo x = true) (hs : badPoly s = true) :
    (speciesLoop (pre ++ s :: post) f).1 = .error polyError := by
  induction pre generalizing f with
  | nil => simp [speciesLoop_cons_badPoly s post f hs]
  | cons x pre ih =>
    have hx := hpre x (List.mem_cons_self x pre)
    cases hb : badPoly x with
    | true => simp [speciesLoop_cons_badPoly x _ f hb]
    | false =>
      rw [List.cons_append, speciesLoop_cons_good x _ f hx hb]
      exact ih _ (fun y hy => hpre y (List.mem_cons_of_mem x hy))

/-- The loop throws exactly when some species lacks `thermo` or has a bad `poly`;
what it throws is then the poly error or a missing-model error. -/
theorem speciesLoop_error_iff (l : List XML_Node) (f : Flags) :
    (∃ e, (speciesLoop l f).1 = .error e)
      ↔ ∃ s ∈ l, hasThermo s = false ∨ badPoly s = true := by
  induction l generalizing f with
  | nil => simp [speciesLoop]
  | cons x l ih =>
    cases ht : hasThermo x with
    | false =>
      simp [speciesLoop_cons_noThermo x l f ht, ht]
    | true =>
      cases hb : badPoly x with
      | true => simp [speciesLoop_cons_badPoly x l f hb, hb]
      | false =>
        rw [speciesLoop_cons_good x l f ht hb, ih]
        simp [ht, hb]

theorem speciesLoop_error_kind (l : List XML_Node) (f : Flags) (e : CanteraException)
    (h : (speciesLoop l f).1 = .error e) :
    e = polyError ∨ ∃ s ∈ l, hasThermo s = false ∧ e = missingError s := by
  induction l generalizing f with
  | nil => simp [speciesLoop] at h
  | cons x l ih =>
    cases ht : hasThermo x with
    | false =>
      rw [speciesLoop_cons_noThermo x l f ht] at h
      right
      exact ⟨x, List.mem_cons_self x l, ht, by simpa using h.symm⟩
    | true =>
      cases hb : badPoly x with
      | true =>
        rw [speciesLoop_cons_badPoly x l f hb] at h
        left
        simpa using h.symm
      | false =>
        rw [speciesLoop_cons_good x l f ht hb] at h
        rcases ih _ h with h1 | ⟨s, hs, h2⟩
        · exact Or.inl h1
        · exact Or.inr ⟨s, List.mem_cons_of_mem x hs, h2⟩

/-! ## Lemmas on the type codes and the dispatcher -/

theorem two_pow_add_ne (a b c : Nat) (h : a ≠ b) : (2 : Int) ^ a + 2 ^ b ≠ 2 ^ c := by
  have key : ∀ a b : Nat, a < b → (2 : Int) ^ a + 2 ^ b ≠ 2 ^ c := by
    intro a b hab heq
    have ha : (0 : Int) < 2 ^ a := by positivity
    have hlt : (2 : Int) ^ a < 2 ^ b := pow_lt_pow_right₀ (by norm_num) hab
    rcases le_or_lt c b with hc | hc
    · have : (2 : Int) ^ c ≤ 2 ^ b := pow_le_pow_right₀ (by norm_num) hc
      linarith
    · have h1 : (2 : Int) ^ (b + 1) ≤ 2 ^ c := pow_le_pow_right₀ (by norm_num) hc
      rw [pow_succ] at h1
      linarith
  rcases lt_or_gt_of_ne h with h1 | h1
  · exact key a b h1
  · rw [add_comm]
    exact key b a h1

theorem ThermoTypes.DistinctPowers.facts {c : ThermoTypes} (h : c.DistinctPowers) :
    0 < c.NASA ∧ 0 < c.SHOMATE ∧ 0 < c.SIMPLE ∧
    c.NASA ≠ c.SHOMATE ∧ c.NASA ≠ c.SIMPLE ∧ c.SHOMATE ≠ c.SIMPLE ∧
    c.NASA + c.SHOMATE ≠ c.SIMPLE ∧ c.NASA + c.SIMPLE ≠ c.SHOMATE ∧
    c.SHOMATE + c.SIMPLE ≠ c.NASA := by
  obtain ⟨i, j, k, hij, hik, hjk, h1, h2, h3⟩ := h
  rw [h1, h2, h3]
  have inj : ∀ a b : Nat, a ≠ b → (2 : Int) ^ a ≠ 2 ^ b := by
    intro a b hab heq
    exact hab (Int.pow_right_injective (show 1 < (2 : Int).natAbs by decide) heq)
  refine ⟨by positivity, by positivity, by positivity, inj i j hij, inj i k hik,
    inj j k hjk, two_pow_add_ne i j k hij, two_pow_add_ne i k j hik,
    two_pow_add_ne j k i hjk⟩

theorem sampleTypes_distinctPowers : sampleTypes.DistinctPowers :=
  ⟨2, 3, 5, by decide, by decide, by decide, by decide, by decide, by decide⟩

theorem typeSum_flagsOf (c : ThermoTypes) (a b d : Bool) :
    typeSum c (flagsOf a b d)
      = (if a then c.NASA else 0) + (if b then c.SHOMATE else 0)
        + (if d then c.SIMPLE else 0) := by
  cases a <;> cases b <;> cases d <;> simp [typeSum, flagsOf, flagOf]

/-- The dispatcher on the sum of a set of flags follows the table of the spec. -/
theorem newSpeciesThermo_flagsOf {c : ThermoTypes} (h : c.DistinctPowers) (a b d : Bool) :
    newSpeciesThermo c (typeSum c (flagsOf a b d))
      = match dispatchTable a b d with
        | some m => .ok m
        | none => .error (unsupportedError (typeSum c (flagsOf a b d))) := by
  obtain ⟨p1, p2, p3, n1, n2, n3, s1, s2, s3⟩ := h.facts
  have q1 : c.NASA ≠ 0 := ne_of_gt p1
  have q2 : c.SHOMATE ≠ 0 := ne_of_gt p2
  have q3 : c.SIMPLE ≠ 0 := ne_of_gt p3
  rw [typeSum_flagsOf]
  cases a <;> cases b <;> cases d <;>
    simp only [newSpeciesThermo, dispatchTable, unsupportedError, if_true, if_false,
      Bool.false_eq_true] <;>
    split_ifs <;> first | rfl | omega

theorem Flags.zero_raise (a b d : Bool) : Flags.zero.raise a b d = flagsOf a b d := by
  cases a <;> cases b <;> cases d <;> rfl

theorem Flags.IsBool.exists_flagsOf {f : Flags} (h : f.IsBool) :
    ∃ a b d, f = flagsOf a b d := by
  obtain ⟨x, y, z⟩ := f
  obtain ⟨h1, h2, h3⟩ := h
  simp only at h1 h2 h3
  refine ⟨decide (x = 1), decide (y = 1), decide (z = 1), ?_⟩
  rcases h1 with rfl | rfl <;> rcases h2 with rfl | rfl <;> rcases h3 with rfl | rfl <;> rfl

theorem speciesLoop_polyError_iff (l : List XML_Node) (f : Flags) :
    (speciesLoop l f).1 = .error polyError ↔ PolyReached l := by
  constructor
  · intro h
    induction l generalizing f with
    | nil => simp [speciesLoop] at h
    | cons x l ih =>
      cases ht : hasThermo x with
      | false =>
        rw [speciesLoop_cons_noThermo x l f ht] at h
        simp [missingError, polyError] at h
      | true =>
        cases hb : badPoly x with
        | true => exact ⟨[], x, l, rfl, by simp, hb⟩
        | false =>
          rw [speciesLoop_cons_good x l f ht hb] at h
          obtain ⟨pre, s, post, hl, hpre, hs⟩ := ih _ h
          refine ⟨x :: pre, s, post, by simp [hl], ?_, hs⟩
          intro y hy
          rcases List.mem_cons.mp hy with rfl | hy1
          · exact ht
          · exact hpre y hy1
  · rintro ⟨pre, s, post, rfl, hpre, hs⟩
    exact speciesLoop_first_badPoly pre post s f hpre hs

theorem optLoop_cons (node : XML_Node) (rest : List XML_Node) (f : Flags) :
    optLoop (node :: rest) f
      = if (getSpeciesThermoTypes node f).1 = .error polyError then .error polyError
        else optLoop rest (getSpeciesThermoTypes node f).2 := by
  cases hr : getSpeciesThermoTypes node f with
  | mk r f1 =>
    cases r with
    | ok u => simp [optLoop, hr]
    | error e =>
      have he : (speciesLoop (node.getChildren "species") f).1 = .error e := by
        have := congrArg Prod.fst hr
        simpa [getSpeciesThermoTypes] using this
      rcases speciesLoop_error_kind _ _ e he with h1 | ⟨x, _, _, h2⟩
      · subst h1
        simp [optLoop, hr, polyError]
      · subst h2
        simp [optLoop, hr, polyError, missingError]

theorem optLoop_error (nodes : List XML_Node) (f : Flags) (e : CanteraException)
    (h : optLoop nodes f = .error e) : e = polyError := by
  induction nodes generalizing f with
  | nil => simp [optLoop] at h
  | cons node rest ih =>
    rw [optLoop_cons] at h
    split_ifs at h
    · simpa using h.symm
    · exact ih _ h

theorem optLoop_polyError_iff (nodes : List XML_Node) (f : Flags) :
    optLoop nodes f = .error polyError
      ↔ ∃ node ∈ nodes, PolyReached (node.getChildren "species") := by
  induction nodes generalizing f with
  | nil => simp [optLoop]
  | cons node rest ih =>
    rw [optLoop_cons]
    by_cases hp : (getSpeciesThermoTypes node f).1 = .error polyError
    · rw [if_pos hp]
      have := (speciesLoop_polyError_iff (node.getChildren "species") f).mp hp
      simp only [true_iff]
      exact ⟨node, List.mem_cons_self _ _, this⟩
    · rw [if_neg hp, ih]
      have hn : ¬ PolyReached (node.getChildren "species") :=
        fun hr => hp ((speciesLoop_polyError_iff _ f).mpr hr)
      simp [hn]

theorem newSpeciesThermo_error (c : ThermoTypes) (type : Int) (e : CanteraException)
    (h : newSpeciesThermo c type = .error e) : e = unsupportedError type := by
  unfold newSpeciesThermo at h
  split_ifs at h
  simp only [unsupportedError]
  simpa using h.symm

theorem newSpeciesThermoOpt_error (c : ThermoTypes) (nodes : List XML_Node) (e : CanteraException)
    (h : newSpeciesThermoOpt c nodes = .error e) :
    (e = polyError ∧ optLoop nodes Flags.zero = .error polyError)
      ∨ ∃ type, e = unsupportedError type := by
  unfold newSpeciesThermoOpt at h
  cases ho : optLoop nodes Flags.zero with
  | error e1 =>
    rw [ho] at h
    have h1 := optLoop_error nodes _ e1 ho
    subst h1
    left
    simp only [Except.error.injEq] at h
    exact ⟨h.symm, rfl⟩
  | ok f1 =>
    rw [ho] at h
    exact Or.inr ⟨_, newSpeciesThermo_error c _ e h⟩

theorem speciesLoop_stop_noThermo (pre post : List XML_Node) (s : XML_Node) (f : Flags)
    (hpre : ∀ x ∈ pre, hasThermo x = true ∧ badPoly x = false) (hs : hasThermo s = false) :
    speciesLoop (pre ++ s :: post) f = (.error (missingError s), f.raiseBy pre) := by
  rw [speciesLoop_append_good pre _ f hpre, speciesLoop_cons_noThermo s post _ hs]

theorem Recognized.good {s : XML_Node} (h : Recognized s) :
    hasThermo s = true ∧ badPoly s = false := ⟨h.1, h.2.2⟩

theorem getSpeciesThermoTypes_recognized (node : XML_Node)
    (h : ∀ s ∈ node.getChildren "species", Recognized s) :
    getSpeciesThermoTypes node Flags.zero
      = (.ok (), flagsOf ((node.getChildren "species").any declaresNASA)
          ((node.getChildren "species").any declaresShomate)
          ((node.getChildren "species").any declaresSimple)) := by
  unfold getSpeciesThermoTypes
  rw [speciesLoop_good _ _ (fun s hs => (h s hs).good), Flags.raiseBy, Flags.zero_raise]

theorem newSpeciesThermoNode_error (c : ThermoTypes) (node : XML_Node) (e : CanteraException)
    (h : (getSpeciesThermoTypes node Flags.zero).1 = .error e) :
    newSpeciesThermoNode c node = .error e := by
  unfold newSpeciesThermoNode
  cases hr : getSpeciesThermoTypes node Flags.zero with
  | mk r f1 =>
    rw [hr] at h
    simp only at h
    subst h
    rfl

/-! ## Lemmas on the three entry points -/

theorem speciesLoop_append (l1 l2 : List XML_Node) (f : Flags) :
    speciesLoop (l1 ++ l2) f
      = match speciesLoop l1 f with
        | (.ok (), f1) => speciesLoop l2 f1
        | (.error e, f1) => (.error e, f1) := by
  induction l1 generalizing f with
  | nil => rfl
  | cons x l1 ih =>
    simp only [List.cons_append, speciesLoop]
    cases hb : speciesBody x f with
    | mk r f1 =>
      cases r with
      | ok u => exact ih f1
      | error e => rfl

theorem strictLoop_eq (nodes : List XML_Node) (f : Flags) :
    strictLoop nodes f
      = match speciesLoop (allSpecies nodes) f with
        | (.ok (), f1) => .ok f1
        | (.error e, _) => .error e := by
  induction nodes generalizing f with
  | nil => rfl
  | cons node rest ih =>
    have e : allSpecies (node :: rest) = node.getChildren "species" ++ allSpecies rest := by
      simp [allSpecies]
    rw [e, speciesLoop_append]
    simp only [strictLoop, getSpeciesThermoTypes]
    cases hr : speciesLoop (node.getChildren "species") f with
    | mk r f1 =>
      cases r with
      | ok u => exact ih f1
      | error e => rfl

theorem optLoop_eq_strictLoop (nodes : List XML_Node) (f : Flags)
    (h : ∀ node ∈ nodes, ∀ s ∈ node.getChildren "species", hasThermo s = true) :
    optLoop nodes f = strictLoop nodes f := by
  induction nodes generalizing f with
  | nil => rfl
  | cons node rest ih =>
    have hrest : ∀ n ∈ rest, ∀ s ∈ n.getChildren "species", hasThermo s = true :=
      fun n hn => h n (List.mem_cons_of_mem node hn)
    cases hr : getSpeciesThermoTypes node f with
    | mk r f1 =>
      cases r with
      | ok u =>
        simp only [optLoop, strictLoop, hr]
        exact ih f1 hrest
      | error e =>
        have he : (speciesLoop (node.getChildren "species") f).1 = .error e := by
          have := congrArg Prod.fst hr
          simpa [getSpeciesThermoTypes] using this
        rcases speciesLoop_error_kind _ _ e he with h1 | ⟨x, hx, hx1, _⟩
        · subst h1
          simp [optLoop, strictLoop, hr, polyError]
        · rw [h node (List.mem_cons_self node rest) x hx] at hx1
          cases hx1

theorem speciesLoop_leading (l : List XML_Node) (f : Flags)
    (h : ∀ s ∈ l.takeWhile hasThermo, badPoly s = false) :
    (speciesLoop l f).2 = f.raiseBy (l.takeWhile hasThermo) ∧
      (speciesLoop l f).1 ≠ .error polyError := by
  induction l generalizing f with
  | nil => simp [speciesLoop, Flags.raiseBy, Flags.raise]
  | cons x l ih =>
    cases ht : hasThermo x with
    | false =>
      rw [speciesLoop_cons_noThermo x l f ht]
      simp [List.takeWhile, ht, Flags.raiseBy, Flags.raise, missingError, polyError]
    | true =>
      have e : (x :: l).takeWhile hasThermo = x :: l.takeWhile hasThermo := by
        simp [List.takeWhile, ht]
      rw [e] at h
      have hb : badPoly x = false := h x (List.mem_cons_self _ _)
      rw [speciesLoop_cons_good x l f ht hb, e, Flags.raiseBy_cons]
      exact ih _ (fun s hs => h s (List.mem_cons_of_mem x hs))

theorem optLoop_leading (nodes : List XML_Node) (f : Flags)
    (h : ∀ node ∈ nodes, ∀ s ∈ leadingRun node, badPoly s = false) :
    optLoop nodes f = .ok (f.raiseBy (nodes.flatMap leadingRun)) := by
  induction nodes generalizing f with
  | nil => simp [optLoop, Flags.raiseBy, Flags.raise]
  | cons node rest ih =>
    obtain ⟨h1, h2⟩ := speciesLoop_leading (node.getChildren "species") f
      (h node (List.mem_cons_self node rest))
    have h2a : ¬ (getSpeciesThermoTypes node f).1 = .error polyError := h2
    have h1a : (getSpeciesThermoTypes node f).2 = f.raiseBy (leadingRun node) := h1
    rw [optLoop_cons, if_neg h2a, h1a,
      ih _ (fun n hn => h n (List.mem_cons_of_mem node hn))]
    simp [Flags.raiseBy_append]

theorem takeWhile_hasThermo_split (pre post : List XML_Node) (s : XML_Node)
    (hpre : ∀ x ∈ pre, hasThermo x = true) (hs : hasThermo s = false) :
    (pre ++ s :: post).takeWhile hasThermo = pre := by
  induction pre with
  | nil => simp [List.takeWhile, hs]
  | cons x pre ih =>
    have hx := hpre x (List.mem_cons_self x pre)
    rw [List.cons_append, List.takeWhile_cons, if_pos hx,
      ih (fun y hy => hpre y (List.mem_cons_of_mem x hy))]

theorem Flags.raise_isBool (f : Flags) (a b d : Bool) (h : f.IsBool) :
    (f.raise a b d).IsBool ∧ f.le (f.raise a b d) := by
  obtain ⟨x, y, z⟩ := f
  obtain ⟨h1, h2, h3⟩ := h
  simp only at h1 h2 h3
  rcases h1 with rfl | rfl <;> rcases h2 with rfl | rfl <;> rcases h3 with rfl | rfl <;>
    cases a <;> cases b <;> cases d <;>
    simp [Flags.raise, Flags.IsBool, Flags.le]

theorem speciesBody_raise (s : XML_Node) (f : Flags) :
    ∃ a b d, (speciesBody s f).2 = f.raise a b d := by
  cases ht : hasThermo s with
  | false =>
    rw [speciesBody_noThermo s f ht]
    exact ⟨false, false, false, rfl⟩
  | true =>
    rw [speciesBody_thermo s f ht]
    exact ⟨_, _, _, rfl⟩

theorem speciesLoop_raise (l : List XML_Node) (f : Flags) :
    ∃ a b d, (speciesLoop l f).2 = f.raise a b d := by
  induction l generalizing f with
  | nil => exact ⟨false, false, false, rfl⟩
  | cons x l ih =>
    obtain ⟨a, b, d, hb⟩ := speciesBody_raise x f
    simp only [speciesLoop]
    cases hr : speciesBody x f with
    | mk r f1 =>
      rw [hr] at hb
      simp only at hb
      subst hb
      cases r with
      | ok u =>
        obtain ⟨a1, b1, d1, h1⟩ := ih (f.raise a b d)
        exact ⟨a || a1, b || b1, d || d1, by rw [← Flags.raise_raise]; exact h1⟩
      | error e => exact ⟨a, b, d, rfl⟩

theorem strictLoop_raise (nodes : List XML_Node) (f g : Flags)
    (h : strictLoop nodes f = .ok g) : ∃ a b d, g = f.raise a b d := by
  rw [strictLoop_eq] at h
  obtain ⟨a, b, d, hr⟩ := speciesLoop_raise (allSpecies nodes) f
  cases hs : speciesLoop (allSpecies nodes) f with
  | mk r f1 =>
    rw [hs] at h hr
    cases r with
    | ok u =>
      simp only [Except.ok.injEq] at h
      exact ⟨a, b, d, by rw [← h]; exact hr⟩
    | error e => cases h

theorem optLoop_raise (nodes : List XML_Node) (f g : Flags)
    (h : optLoop nodes f = .ok g) : ∃ a b d, g = f.raise a b d := by
  induction nodes generalizing f with
  | nil =>
    simp only [optLoop, Except.ok.injEq] at h
    exact ⟨false, false, false, h.symm⟩
  | cons node rest ih =>
    rw [optLoop_cons] at h
    split_ifs at h
    obtain ⟨a, b, d, hr⟩ := speciesLoop_raise (node.getChildren "species") f
    have hr1 : (getSpeciesThermoTypes node f).2 = f.raise a b d := hr
    rw [hr1] at h
    obtain ⟨a1, b1, d1, h1⟩ := ih _ h
    exact ⟨a || a1, b || b1, d || d1, by rw [← Flags.raise_raise]; exact h1⟩

theorem flagsOf_isBool (a b d : Bool) : (flagsOf a b d).IsBool := by
  cases a <;> cases b <;> cases d <;> simp [flagsOf, flagOf, Flags.IsBool]

theorem flagsOf_any_eq_one (l : List XML_Node) (p : XML_Node → Bool) :
    flagOf (l.any p) = 1 ↔ ∃ s ∈ l, p s = true := by
  rw [← List.any_eq_true]
  cases l.any p <;> simp [flagOf]

theorem getChildren_mkData_allSpecies (nodes : List XML_Node) :
    (mkData (allSpecies nodes)).getChildren "species" = allSpecies nodes := by
  simp only [mkData, XML_Node.getChildren, XML_Node.children]
  rw [List.filter_eq_self]
  intro a ha
  simp only [allSpecies, List.mem_flatMap, XML_Node.getChildren, List.mem_filter] at ha
  obtain ⟨_, _, _, h⟩ := ha
  exact h

theorem newSpeciesThermoNodes_eq (c : ThermoTypes) (nodes : List XML_Node) (node : XML_Node)
    (h : node.getChildren "species" = allSpecies nodes) :
    newSpeciesThermoNodes c nodes = newSpeciesThermoNode c node := by
  simp only [newSpeciesThermoNodes, newSpeciesThermoNode, getSpeciesThermoTypes, strictLoop_eq, h]
  cases hr : speciesLoop (allSpecies nodes) Flags.zero with
  | mk r f1 =>
    cases r with
    | ok u => rfl
    | error e => rfl

/-! ## The claims -/

/-- C1: with the type codes distinct powers of two, `newSpeciesThermo(int)` on the
sum `NASA*a + SHOMATE*b + SIMPLE*c` of a 0/1 flag triple follows the dispatch table:
the five constructible sets give their manager, the three others throw
`UnknownSpeciesThermo` with the sum; distinct 0/1 triples have distinct sums, so no
`case` label is reached by two triples, and their outcomes differ. -/
theorem C1_dispatch_table (c : ThermoTypes) (h : c.DistinctPowers) :
    newSpeciesThermo c (typeSum c ⟨1, 0, 0⟩) = .ok (.single .NasaThermo) ∧
    newSpeciesThermo c (typeSum c ⟨0, 1, 0⟩) = .ok (.single .ShomateThermo) ∧
    newSpeciesThermo c (typeSum c ⟨0, 0, 1⟩) = .ok (.single .SimpleThermo) ∧
    newSpeciesThermo c (typeSum c ⟨1, 1, 0⟩)
      = .ok (.SpeciesThermoDuo .NasaThermo .ShomateThermo) ∧
    newSpeciesThermo c (typeSum c ⟨1, 0, 1⟩)
      = .ok (.SpeciesThermoDuo .NasaThermo .SimpleThermo) ∧
    newSpeciesThermo c (typeSum c ⟨0, 1, 1⟩)
      = .error (.UnknownSpeciesThermo "SpeciesThermoFactory::newSpeciesThermo"
          (c.SHOMATE + c.SIMPLE)) ∧
    newSpeciesThermo c (typeSum c ⟨1, 1, 1⟩)
      = .error (.UnknownSpeciesThermo "SpeciesThermoFactory::newSpeciesThermo"
          (c.NASA + c.SHOMATE + c.SIMPLE)) ∧
    newSpeciesThermo c (typeSum c ⟨0, 0, 0⟩)
      = .error (.UnknownSpeciesThermo "SpeciesThermoFactory::newSpeciesThermo" 0) ∧
    (∀ f g : Flags, f.IsBool → g.IsBool → typeSum c f = typeSum c g → f = g) ∧
    (∀ f g : Flags, f.IsBool → g.IsBool →
      newSpeciesThermo c (typeSum c f) = newSpeciesThermo c (typeSum c g) → f = g) := by
  obtain ⟨p1, p2, p3, n1, n2, n3, s1, s2, s3⟩ := h.facts
  have sumInj : ∀ f g : Flags, f.IsBool → g.IsBool → typeSum c f = typeSum c g → f = g := by
    intro f g hf hg heq
    obtain ⟨a, b, d, rfl⟩ := hf.exists_flagsOf
    obtain ⟨a1, b1, d1, rfl⟩ := hg.exists_flagsOf
    rw [typeSum_flagsOf, typeSum_flagsOf] at heq
    cases a <;> cases b <;> cases d <;> cases a1 <;> cases b1 <;> cases d1 <;>
      first
        | rfl
        | (exfalso
           simp only [if_true, if_false, Bool.false_eq_true] at heq
           omega)
  have t := fun a b d => newSpeciesThermo_flagsOf h a b d
  refine ⟨?_, ?_, ?_, ?_, ?_, ?_, ?_, ?_, sumInj, ?_⟩
  · exact t true false false
  · exact t false true false
  · exact t false false true
  · exact t true true false
  · exact t true false true
  · have := t false true true
    simpa [flagsOf, flagOf, typeSum, dispatchTable, unsupportedError] using this
  · have := t true true true
    simpa [flagsOf, flagOf, typeSum, dispatchTable, unsupportedError] using this
  · have := t false false false
    simpa [flagsOf, flagOf, typeSum, dispatchTable, unsupportedError] using this
  · intro f g hf hg heq
    obtain ⟨a, b, d, rfl⟩ := hf.exists_flagsOf
    obtain ⟨a1, b1, d1, rfl⟩ := hg.exists_flagsOf
    rw [t, t] at heq
    cases a <;> cases b <;> cases d <;> cases a1 <;> cases b1 <;> cases d1 <;>
      first
        | rfl
        | (exfalso
           simp only [dispatchTable, unsupportedError, typeSum_flagsOf, if_true, if_false,
             Bool.false_eq_true, Except.ok.injEq, Except.error.injEq,
             CanteraException.UnknownSpeciesThermo.injEq, SpeciesThermo.single.injEq,
             SpeciesThermo.SpeciesThermoDuo.injEq, true_and, and_true, and_false,
             reduceCtorEq] at heq <;>
           omega)

/-- Witness of C1 at the codes NASA = 4, SHOMATE = 8, SIMPLE = 32. -/
theorem C1_dispatch_table_witness :
    sampleTypes.DistinctPowers ∧
    newSpeciesThermo sampleTypes (typeSum sampleTypes ⟨1, 1, 0⟩)
      = .ok (.SpeciesThermoDuo .NasaThermo .ShomateThermo) :=
  ⟨sampleTypes_distinctPowers,
   (C1_dispatch_table sampleTypes sampleTypes_distinctPowers).2.2.2.1⟩

/-- C2: when every species has a `thermo` carrying exactly one recognized tag,
`newSpeciesThermo(node)` returns the manager the dispatch table assigns to the set of
parameterizations present when that set is one of {NASA}, {Shomate}, {Simple},
{NASA,Shomate}, {NASA,Simple}, and throws `UnknownSpeciesThermo` for every other set;
the collection [H2 with NASA, O2 with Shomate] gives a Duo(Nasa,Shomate) manager. -/
theorem C2_strict_construction (c : ThermoTypes) (h : c.DistinctPowers) (node : XML_Node)
    (hrec : ∀ s ∈ node.getChildren "species", Recognized s) :
    (newSpeciesThermoNode c node
      = match dispatchTable ((node.getChildren "species").any declaresNASA)
            ((node.getChildren "species").any declaresShomate)
            ((node.getChildren "species").any declaresSimple) with
        | some m => .ok m
        | none => .error (.UnknownSpeciesThermo "SpeciesThermoFactory::newSpeciesThermo"
            (typeSum c (flagsOf ((node.getChildren "species").any declaresNASA)
              ((node.getChildren "species").any declaresShomate)
              ((node.getChildren "species").any declaresSimple))))) ∧
    ((∃ m, newSpeciesThermoNode c node = .ok m) ↔
      ((node.getChildren "species").any declaresNASA,
       (node.getChildren "species").any declaresShomate,
       (node.getChildren "species").any declaresSimple)
        ∈ [(true, false, false), (false, true, false), (false, false, true),
           (true, true, false), (true, false, true)]) ∧
    newSpeciesThermoNode c exampleH2O2
      = .ok (.SpeciesThermoDuo .NasaThermo .ShomateThermo) := by
  have key : newSpeciesThermoNode c node
      = match dispatchTable ((node.getChildren "species").any declaresNASA)
            ((node.getChildren "species").any declaresShomate)
            ((node.getChildren "species").any declaresSimple) with
        | some m => .ok m
        | none => .error (unsupportedError
            (typeSum c (flagsOf ((node.getChildren "species").any declaresNASA)
              ((node.getChildren "species").any declaresShomate)
              ((node.getChildren "species").any declaresSimple)))) := by
    simp only [newSpeciesThermoNode, getSpeciesThermoTypes_recognized node hrec]
    exact newSpeciesThermo_flagsOf h _ _ _
  refine ⟨key, ?_, ?_⟩
  · rw [key]
    generalize (node.getChildren "species").any declaresNASA = a
    generalize (node.getChildren "species").any declaresShomate = b
    generalize (node.getChildren "species").any declaresSimple = d
    cases a <;> cases b <;> cases d <;> simp [dispatchTable]
  · have e : getSpeciesThermoTypes exampleH2O2 Flags.zero = (.ok (), flagsOf true true false) :=
      rfl
    simp only [newSpeciesThermoNode, e]
    exact newSpeciesThermo_flagsOf h true true false

/-- Witness of C2 at the codes 4, 8, 32 and the collection [H2 with NASA, O2 with Shomate]. -/
theorem C2_strict_construction_witness :
    sampleTypes.DistinctPowers ∧ (∀ s ∈ exampleH2O2.getChildren "species", Recognized s) ∧
    newSpeciesThermoNode sampleTypes exampleH2O2
      = .ok (.SpeciesThermoDuo .NasaThermo .ShomateThermo) :=
  ⟨sampleTypes_distinctPowers, by decide,
   (C2_strict_construction sampleTypes sampleTypes_distinctPowers exampleH2O2
      (by decide)).2.2⟩

/-- C3: when every species of the collection carries exactly one recognized tag,
`getSpeciesThermoTypes` from flags (0,0,0) returns normally, each flag is 1 exactly
when some species declares that parameterization (`const_cp` and `poly` of order "1"
both being Simple), and a collection with a permutation of the species list gives
the same result. -/
theorem C3_flags_are_union (node : XML_Node)
    (h : ∀ s ∈ node.getChildren "species", Recognized s) :
    (∃ f : Flags, getSpeciesThermoTypes node Flags.zero = (.ok (), f) ∧ f.IsBool ∧
      (f.has_nasa = 1 ↔ ∃ s ∈ node.getChildren "species", declaresNASA s = true) ∧
      (f.has_shomate = 1 ↔ ∃ s ∈ node.getChildren "species", declaresShomate s = true) ∧
      (f.has_simple = 1 ↔ ∃ s ∈ node.getChildren "species",
          hasTag s "const_cp" = true ∨ polyOrder s = some "1")) ∧
    (∀ node1 : XML_Node,
      (node1.getChildren "species").Perm (node.getChildren "species") →
      getSpeciesThermoTypes node1 Flags.zero = getSpeciesThermoTypes node Flags.zero) := by
  constructor
  · refine ⟨_, getSpeciesThermoTypes_recognized node h, ?_, ?_, ?_, ?_⟩
    · simp only [Flags.IsBool, flagsOf, flagOf]
      refine ⟨?_, ?_, ?_⟩ <;> split_ifs <;> simp
    · simp [flagsOf, flagOf]
    · simp [flagsOf, flagOf]
    · have e : (flagsOf ((node.getChildren "species").any declaresNASA)
          ((node.getChildren "species").any declaresShomate)
          ((node.getChildren "species").any declaresSimple)).has_simple = 1
          ↔ (node.getChildren "species").any declaresSimple = true := by
        simp [flagsOf, flagOf]
      rw [e, List.any_eq_true]
      refine exists_congr (fun x => and_congr_right (fun _ => ?_))
      simp only [declaresSimple, Bool.or_eq_true, beq_iff_eq]
  · intro node1 hp
    have h1 : ∀ s ∈ node1.getChildren "species", Recognized s :=
      fun s hs => h s (hp.mem_iff.mp hs)
    unfold getSpeciesThermoTypes
    rw [speciesLoop_good _ _ (fun s hs => (h s hs).good),
      speciesLoop_good _ _ (fun s hs => (h1 s hs).good), Flags.raiseBy_perm _ hp]

/-- Witness of C3 at the collection [H2 with NASA, O2 with Shomate]. -/
theorem C3_flags_are_union_witness :
    (∀ s ∈ exampleH2O2.getChildren "species", Recognized s) ∧
    getSpeciesThermoTypes (mkData [mkSpecies "O2" [mkTag "Shomate"], mkSpecies "H2" [mkTag "NASA"]])
        Flags.zero
      = getSpeciesThermoTypes exampleH2O2 Flags.zero :=
  ⟨by decide,
   (C3_flags_are_union exampleH2O2 (by decide)).2 _ (List.Perm.swap _ _ [])⟩

/-- C4, the claim as stated fails: in [CH4 with poly of order "2", AR without thermo]
the species AR lacks `thermo`, yet classification and construction throw the
poly-order error, not the missing-model error naming AR. -/
theorem C4_counterexample :
    polyThenBare.getChildren "species" = [mkSpecies "CH4" [mkPoly "2"], mkBareSpecies "AR"] ∧
    hasThermo (mkBareSpecies "AR") = false ∧
    (getSpeciesThermoTypes polyThenBare Flags.zero).1 = .error polyError ∧
    newSpeciesThermoNode sampleTypes polyThenBare = .error polyError ∧
    polyError ≠ missingError (mkBareSpecies "AR") := by
  refine ⟨rfl, rfl, rfl, rfl, ?_⟩
  simp [polyError, missingError]

/-- C4 as amended: when the collection has a species `s` without `thermo` and every
species before it has one, `getSpeciesThermoTypes` and `newSpeciesThermo(node)` throw;
they throw `UnknownSpeciesThermoModel` with the `name` attribute of `s` when no
species before `s` has a `poly` of order other than "1", and the poly-order error
otherwise. -/
theorem C4_first_missing_thermo (c : ThermoTypes) (node : XML_Node)
    (pre post : List XML_Node) (s : XML_Node) (f : Flags)
    (hl : node.getChildren "species" = pre ++ s :: post)
    (hpre : ∀ x ∈ pre, hasThermo x = true) (hs : hasThermo s = false) :
    (getSpeciesThermoTypes node f).1
      = .error (if pre.any badPoly then
          .CanteraError "newSpeciesThermo" "poly with order > 1 not yet supported"
        else .UnknownSpeciesThermoModel "getSpeciesThermoTypes:" (s.attrib "name") "missing") ∧
    newSpeciesThermoNode c node
      = .error (if pre.any badPoly then
          .CanteraError "newSpeciesThermo" "poly with order > 1 not yet supported"
        else .UnknownSpeciesThermoModel "getSpeciesThermoTypes:" (s.attrib "name") "missing") := by
  have key : ∀ g, (getSpeciesThermoTypes node g).1
      = .error (if pre.any badPoly then polyError else missingError s) := by
    intro g
    unfold getSpeciesThermoTypes
    rw [hl]
    exact speciesLoop_first_noThermo pre post s g hpre hs
  exact ⟨key f, newSpeciesThermoNode_error c node _ (key Flags.zero)⟩

/-- Witness of C4 as amended at [H2 with NASA, AR without thermo]. -/
theorem C4_first_missing_thermo_witness :
    nasaThenBare.getChildren "species" = [mkSpecies "H2" [mkTag "NASA"]] ++ mkBareSpecies "AR" :: [] ∧
    (∀ x ∈ [mkSpecies "H2" [mkTag "NASA"]], hasThermo x = true) ∧
    hasThermo (mkBareSpecies "AR") = false ∧
    newSpeciesThermoNode sampleTypes nasaThenBare
      = .error (.UnknownSpeciesThermoModel "getSpeciesThermoTypes:" "AR" "missing") :=
  ⟨rfl, by decide, rfl,
   (C4_first_missing_thermo sampleTypes nasaThenBare [mkSpecies "H2" [mkTag "NASA"]] []
      (mkBareSpecies "AR") Flags.zero rfl (by decide) rfl).2⟩

/-- C5, the claim as stated fails: with A = [H2 with NASA, AR without thermo] and
B = [O2 with Shomate], the lenient entry point passes NASA + SHOMATE = 12 to the
dispatcher and returns a Duo(Nasa,Shomate) manager, while B alone gives the sum
SHOMATE = 8 and a Shomate manager. -/
theorem C5_counterexample :
    hasThermo (mkBareSpecies "AR") = false ∧
    nasaThenBare.getChildren "species" = [mkSpecies "H2" [mkTag "NASA"], mkBareSpecies "AR"] ∧
    (∀ s ∈ shomateOnly.getChildren "species", Recognized s) ∧
    (optLoop [nasaThenBare, shomateOnly] Flags.zero).map (typeSum sampleTypes) = .ok 12 ∧
    typeSum sampleTypes (getSpeciesThermoTypes shomateOnly Flags.zero).2 = 8 ∧
    newSpeciesThermoOpt sampleTypes [nasaThenBare, shomateOnly]
      = .ok (.SpeciesThermoDuo .NasaThermo .ShomateThermo) ∧
    newSpeciesThermoNode sampleTypes shomateOnly = .ok (.single .ShomateThermo) :=
  ⟨rfl, rfl, by decide, rfl, rfl, rfl, rfl⟩

/-- C5 as amended: let A have a species `s` without `thermo`, every species before
`s` having a `thermo` and no `poly` of order other than "1", and let every species of
B be recognized. Then `newSpeciesThermoOpt([A, B])` calls the dispatcher with the sum
of the flags declared by the species of A before `s` together with those of B; the
species of A from `s` on contribute nothing, and when `s` is the first species of A
the sum is the one computed from B alone. -/
theorem C5_lenient_flag_sum (c : ThermoTypes) (A B : XML_Node)
    (pre post : List XML_Node) (s : XML_Node)
    (hA : A.getChildren "species" = pre ++ s :: post)
    (hpre : ∀ x ∈ pre, hasThermo x = true ∧ badPoly x = false)
    (hs : hasThermo s = false)
    (hB : ∀ x ∈ B.getChildren "species", Recognized x) :
    optLoop [A, B] Flags.zero = .ok (Flags.zero.raiseBy (pre ++ B.getChildren "species")) ∧
    newSpeciesThermoOpt c [A, B]
      = newSpeciesThermo c (typeSum c (Flags.zero.raiseBy (pre ++ B.getChildren "species"))) ∧
    getSpeciesThermoTypes B Flags.zero
      = (.ok (), Flags.zero.raiseBy (B.getChildren "species")) ∧
    (pre = [] →
      newSpeciesThermoOpt c [A, B]
        = newSpeciesThermo c (typeSum c (getSpeciesThermoTypes B Flags.zero).2)) := by
  have hgood : ∀ x ∈ B.getChildren "species", hasThermo x = true ∧ badPoly x = false :=
    fun x hx => (hB x hx).good
  have eA : getSpeciesThermoTypes A Flags.zero
      = (.error (missingError s), Flags.zero.raiseBy pre) := by
    unfold getSpeciesThermoTypes
    rw [hA]
    exact speciesLoop_stop_noThermo pre post s _ hpre hs
  have eB : ∀ g, getSpeciesThermoTypes B g = (.ok (), g.raiseBy (B.getChildren "species")) :=
    fun g => speciesLoop_good _ g hgood
  have eo : optLoop [A, B] Flags.zero
      = .ok (Flags.zero.raiseBy (pre ++ B.getChildren "species")) := by
    simp only [optLoop, eA, eB, missingError, Flags.raiseBy_append]
  refine ⟨eo, ?_, eB _, ?_⟩
  · simp only [newSpeciesThermoOpt, eo]
  · intro hnil
    subst hnil
    simp only [newSpeciesThermoOpt, eo, eB, List.nil_append]

/-- Witness of C5 as amended at A = [H2 with NASA, AR without thermo],
B = [O2 with Shomate]. -/
theorem C5_lenient_flag_sum_witness :
    nasaThenBare.getChildren "species"
      = [mkSpecies "H2" [mkTag "NASA"]] ++ mkBareSpecies "AR" :: [] ∧
    (∀ x ∈ [mkSpecies "H2" [mkTag "NASA"]], hasThermo x = true ∧ badPoly x = false) ∧
    hasThermo (mkBareSpecies "AR") = false ∧
    (∀ x ∈ shomateOnly.getChildren "species", Recognized x) ∧
    optLoop [nasaThenBare, shomateOnly] Flags.zero
      = .ok (Flags.zero.raiseBy
          ([mkSpecies "H2" [mkTag "NASA"]] ++ shomateOnly.getChildren "species")) :=
  ⟨rfl, by decide, rfl, by decide,
   (C5_lenient_flag_sum sampleTypes nasaThenBare shomateOnly [mkSpecies "H2" [mkTag "NASA"]] []
      (mkBareSpecies "AR") rfl (by decide) rfl (by decide)).1⟩

/-- C6, the claim as stated fails: in [[AR without thermo, CH4 with poly of order
"2"], [H2 with NASA]] a species has a `poly` of order "2", yet the lenient entry
point does not throw: the first collection is left at AR, before CH4 is looked at,
and a Nasa manager is returned. -/
theorem C6_counterexample :
    bareThenPoly.getChildren "species" = [mkBareSpecies "AR", mkSpecies "CH4" [mkPoly "2"]] ∧
    badPoly (mkSpecies "CH4" [mkPoly "2"]) = true ∧
    newSpeciesThermoOpt sampleTypes [bareThenPoly, nasaOnly] = .ok (.single .NasaThermo) :=
  ⟨rfl, rfl, rfl⟩

/-- C6 as amended: `newSpeciesThermoOpt` never throws the missing-model error, and it
throws the poly-order error exactly when in some collection a species has a `poly`
tag whose order is not "1" and every species before it in that collection has a
`thermo` sub-structure, whatever the other collections and the later species hold. -/
theorem C6_lenient_poly_error (c : ThermoTypes) (nodes : List XML_Node) :
    (newSpeciesThermoOpt c nodes
        = .error (.CanteraError "newSpeciesThermo" "poly with order > 1 not yet supported")
      ↔ ∃ node ∈ nodes, ∃ pre s post, node.getChildren "species" = pre ++ s :: post ∧
          (∀ x ∈ pre, hasThermo x = true) ∧ badPoly s = true) ∧
    (∀ e, newSpeciesThermoOpt c nodes = .error e →
      ∀ p n m, e ≠ .UnknownSpeciesThermoModel p n m) := by
  constructor
  · constructor
    · intro h
      rcases newSpeciesThermoOpt_error c nodes _ h with ⟨_, h1⟩ | ⟨t, h2⟩
      · exact (optLoop_polyError_iff nodes _).mp h1
      · simp [unsupportedError] at h2
    · intro h
      have := (optLoop_polyError_iff nodes Flags.zero).mpr h
      simp only [newSpeciesThermoOpt, this]
      rfl
  · intro e h p n m he
    subst he
    rcases newSpeciesThermoOpt_error c nodes _ h with ⟨h1, _⟩ | ⟨t, h2⟩
    · simp [polyError] at h1
    · simp [unsupportedError] at h2

/-- C7: when some species of the collection has a `poly` tag whose order is not the
string "1", `newSpeciesThermo(node)` throws; the exception is the one
`getSpeciesThermoTypes` throws, so the dispatcher is not reached and no manager is
returned; it is the poly-order error whenever every species has a `thermo`
sub-structure, whatever else the other species declare. -/
theorem C7_bad_poly_order (c : ThermoTypes) (node : XML_Node) (s : XML_Node)
    (hmem : s ∈ node.getChildren "species") (hs : badPoly s = true) :
    ∃ e, (getSpeciesThermoTypes node Flags.zero).1 = .error e ∧
      newSpeciesThermoNode c node = .error e ∧
      (∀ m, newSpeciesThermoNode c node ≠ .ok m) ∧
      ((∀ x ∈ node.getChildren "species", hasThermo x = true) →
        e = .CanteraError "newSpeciesThermo" "poly with order > 1 not yet supported") := by
  obtain ⟨e, he⟩ := (speciesLoop_error_iff (node.getChildren "species") Flags.zero).mpr
    ⟨s, hmem, Or.inr hs⟩
  have he1 : (getSpeciesThermoTypes node Flags.zero).1 = .error e := he
  have hn := newSpeciesThermoNode_error c node e he1
  refine ⟨e, he1, hn, ?_, ?_⟩
  · intro m hm
    rw [hn] at hm
    cases hm
  · intro hall
    rcases speciesLoop_error_kind _ _ e he with h1 | ⟨x, hx, hx1, _⟩
    · exact h1
    · rw [hall x hx] at hx1
      cases hx1

/-- Witness of C7 at [CH4 with poly of order "2", AR without thermo]. -/
theorem C7_bad_poly_order_witness :
    mkSpecies "CH4" [mkPoly "2"] ∈ polyThenBare.getChildren "species" ∧
    badPoly (mkSpecies "CH4" [mkPoly "2"]) = true ∧
    ∃ e, (getSpeciesThermoTypes polyThenBare Flags.zero).1 = .error e ∧
      newSpeciesThermoNode sampleTypes polyThenBare = .error e ∧
      (∀ m, newSpeciesThermoNode sampleTypes polyThenBare ≠ .ok m) ∧
      ((∀ x ∈ polyThenBare.getChildren "species", hasThermo x = true) →
        e = .CanteraError "newSpeciesThermo" "poly with order > 1 not yet supported") :=
  ⟨List.mem_cons_self _ _, rfl,
   C7_bad_poly_order sampleTypes polyThenBare (mkSpecies "CH4" [mkPoly "2"])
     (List.mem_cons_self _ _) rfl⟩

/-- C8, the claim as stated fails: in [H2 with NASA, AR whose thermo holds only the
tag Mu0] the species AR has a `thermo` with none of the four tags, yet
`getSpeciesThermoTypes` returns normally and construction yields a Nasa manager. -/
theorem C8_counterexample :
    nasaAndUntagged.getChildren "species"
      = [mkSpecies "H2" [mkTag "NASA"], mkSpecies "AR" [mkTag "Mu0"]] ∧
    hasThermo (mkSpecies "AR" [mkTag "Mu0"]) = true ∧
    tagCount (mkSpecies "AR" [mkTag "Mu0"]) = 0 ∧
    getSpeciesThermoTypes nasaAndUntagged Flags.zero = (.ok (), ⟨1, 0, 0⟩) ∧
    newSpeciesThermoNode sampleTypes nasaAndUntagged = .ok (.single .NasaThermo) :=
  ⟨rfl, rfl, rfl, rfl, rfl⟩

/-- C8 as amended: `getSpeciesThermoTypes` throws exactly when some species of the
collection has no `thermo` sub-structure or has a `poly` tag of order other than "1";
a species whose `thermo` holds none of the tags NASA, Shomate, const_cp, poly passes
the loop body without a throw and leaves the flags as they are. -/
theorem C8_failure_iff (node : XML_Node) (f : Flags) :
    ((∃ e, (getSpeciesThermoTypes node f).1 = .error e) ↔
      ∃ s ∈ node.getChildren "species", hasThermo s = false ∨ badPoly s = true) ∧
    (∀ s : XML_Node, hasThermo s = true → tagCount s = 0 →
      speciesBody s f = (.ok (), f)) := by
  refine ⟨speciesLoop_error_iff _ f, ?_⟩
  intro s ht hc
  have h0 : ∀ t ∈ ["NASA", "Shomate", "const_cp", "poly"], hasTag s t = false := by
    intro t hm
    have := List.eq_nil_of_length_eq_zero hc
    rw [List.filter_eq_nil_iff] at this
    simpa using this t hm
  have hN : hasTag s "NASA" = false := h0 _ (by simp)
  have hS : hasTag s "Shomate" = false := h0 _ (by simp)
  have hC : hasTag s "const_cp" = false := h0 _ (by simp)
  have hP : hasTag s "poly" = false := h0 _ (by simp)
  have hpo : polyOrder s = none := by
    simp only [hasTag, XML_Node.hasChild] at hP
    simp only [polyOrder]
    cases hth : s.child "thermo" with
    | none => rfl
    | some th =>
      rw [hth] at hP
      cases hq : th.child "poly" with
      | none => simp [hq]
      | some q => simp [hq] at hP
  rw [speciesBody_thermo s f ht]
  simp [badPoly, declaresNASA, declaresShomate, declaresSimple, hpo, hN, hS, hC, Flags.raise]

/-- C9: `newSpeciesThermo(type)` throws exactly when `type` is none of NASA, SHOMATE,
SIMPLE, NASA+SHOMATE, NASA+SIMPLE; what it throws is `UnknownSpeciesThermo` carrying
`type` itself, and a manager is returned for the five values only. -/
theorem C9_unsupported_combination (c : ThermoTypes) (type : Int) :
    ((∃ e, newSpeciesThermo c type = .error e) ↔
      (type ≠ c.NASA ∧ type ≠ c.SHOMATE ∧ type ≠ c.SIMPLE ∧
        type ≠ c.NASA + c.SHOMATE ∧ type ≠ c.NASA + c.SIMPLE)) ∧
    (∀ e, newSpeciesThermo c type = .error e →
      e = .UnknownSpeciesThermo "SpeciesThermoFactory::newSpeciesThermo" type) ∧
    (∀ m, newSpeciesThermo c type = .ok m →
      (type = c.NASA ∨ type = c.SHOMATE ∨ type = c.SIMPLE ∨
        type = c.NASA + c.SHOMATE ∨ type = c.NASA + c.SIMPLE)) := by
  unfold newSpeciesThermo
  refine ⟨?_, ?_, ?_⟩
  · split_ifs <;> simp [*]
  · intro e
    split_ifs <;> simp
    intro he
    exact he.symm
  · intro m
    split_ifs <;> simp [*]

/-- C10: on a base `Integrator`, in any state, no default method throws, and the
value-returning defaults are neutral for all arguments: `nEquations()`, `nEvals()`
and `nSensParams()` return 0, `sensitivity(k, p)` and `step(tout)` return 0.0; each
tuning-knob setter (and every other default method) returns normally. -/
theorem C10_base_defaults (w : World) :
    (∃ w1, Integrator.nEquations w = .ok (0, w1)) ∧
    (∃ w1, Integrator.nEvals w = .ok (0, w1)) ∧
    (∃ w1, Integrator.nSensParams w = .ok (0, w1)) ∧
    (∀ k p, ∃ w1, Integrator.sensitivity k p w = .ok (0.0, w1)) ∧
    (∀ tout, ∃ w1, Integrator.step tout w = .ok (0.0, w1)) ∧
    (∀ n, ∃ w1, Integrator.setMaxOrder n w = .ok ((), w1)) ∧
    (∀ t, ∃ w1, Integrator.setMethod t w = .ok ((), w1)) ∧
    (∀ t, ∃ w1, Integrator.setIterator t w = .ok ((), w1)) ∧
    (∀ hmax, ∃ w1, Integrator.setMaxStepSize hmax w = .ok ((), w1)) ∧
    (∀ hmin, ∃ w1, Integrator.setMinStepSize hmin w = .ok ((), w1)) ∧
    (∀ nmax, ∃ w1, Integrator.setMaxSteps nmax w = .ok ((), w1)) ∧
    (∀ reltol n abstol, ∃ w1, Integrator.setTolerancesArray reltol n abstol w = .ok ((), w1)) ∧
    (∀ reltol abstol, ∃ w1, Integrator.setTolerances reltol abstol w = .ok ((), w1)) ∧
    (∀ reltol abstol, ∃ w1,
      Integrator.setSensitivityTolerances reltol abstol w = .ok ((), w1)) ∧
    (∀ probtype, ∃ w1, Integrator.setProblemType probtype w = .ok ((), w1)) ∧
    (∀ (FuncEval : Type) (t0 : doublereal) (func : FuncEval),
      ∃ w1, Integrator.initializeWith t0 func w = .ok ((), w1)) ∧
    (∀ (FuncEval : Type) (t0 : doublereal) (func : FuncEval),
      ∃ w1, Integrator.reinitializeWith t0 func w = .ok ((), w1)) ∧
    (∀ tout, ∃ w1, Integrator.integrate tout w = .ok ((), w1)) ∧
    (∀ k, ∃ r w1, Integrator.solution k w = .ok (r, w1)) ∧
    (∃ r w1, Integrator.solutionArray w = .ok (r, w1)) := by
  refine ⟨⟨_, rfl⟩, ⟨_, rfl⟩, ⟨_, rfl⟩, fun _ _ => ⟨_, rfl⟩, fun _ => ⟨_, rfl⟩,
    fun _ => ⟨_, rfl⟩, fun _ => ⟨_, rfl⟩, fun _ => ⟨_, rfl⟩, fun _ => ⟨_, rfl⟩,
    fun _ => ⟨_, rfl⟩, fun _ => ⟨_, rfl⟩, fun _ _ _ => ⟨_, rfl⟩, fun _ _ => ⟨_, rfl⟩,
    fun _ _ => ⟨_, rfl⟩, fun _ => ⟨_, rfl⟩, fun _ _ _ => ⟨_, rfl⟩, fun _ _ _ => ⟨_, rfl⟩,
    fun _ => ⟨_, rfl⟩, fun _ => ⟨_, _, rfl⟩, ⟨_, _, rfl⟩⟩

/-- C11, the claim as stated fails: on the object whose `m_dummy` is 0, a caller reads
`solution(0)` = 0, writes 1 through the reference `solution(0)` returned, and then
reads `solution(0)` = 1: the value does not stay the same after a write through the
reference. -/
theorem C11_counterexample :
    (Integrator.readWriteRead 0 0 0 1 ⟨⟨0⟩, []⟩).map Prod.fst = .ok (0, 1) ∧
    (0 : doublereal) ≠ 1 :=
  ⟨rfl, by decide⟩

/-- C11 as amended: the default `solution(k)` returns, for every index `k`, the value
of the one member `m_dummy` and leaves the object as it is, so the value is the same
for all `k` and across repeated calls; after a caller has written `v` through the
reference returned by a `solution(k2)` call, every later `solution(k3)` returns `v`. -/
theorem C11_solution_dummy (w : World) :
    (∀ k, Integrator.solution k w
      = .ok (w.self.m_dummy, ⟨w.self, w.log ++
          [">>>> Warning: method solution of base class Integrator called. Nothing done.\n"]⟩)) ∧
    (∀ k1 k2, (Integrator.solution k1 w).map Prod.fst
      = (Integrator.solution k2 w).map Prod.fst) ∧
    (∀ k1 k2 r1 w1 r2 w2, Integrator.solution k1 w = .ok (r1, w1) →
      Integrator.solution k2 w1 = .ok (r2, w2) → r2 = r1) ∧
    (∀ k1 k2 k3 v, (Integrator.readWriteRead k1 k2 k3 v w).map Prod.fst
      = .ok (w.self.m_dummy, v)) := by
  refine ⟨fun _ => rfl, fun _ _ => rfl, ?_, fun _ _ _ _ => rfl⟩
  intro k1 k2 r1 w1 r2 w2 h1 h2
  have e1 : Integrator.solution k1 w
      = .ok (w.self.m_dummy, ⟨w.self, w.log ++
          [">>>> Warning: method solution of base class Integrator called. Nothing done.\n"]⟩) :=
    rfl
  rw [e1] at h1
  simp only [Except.ok.injEq, Prod.mk.injEq] at h1
  obtain ⟨hr, hw⟩ := h1
  subst hr hw
  have e2 : ∀ u : World, Integrator.solution k2 u
      = .ok (u.self.m_dummy, ⟨u.self, u.log ++
          [">>>> Warning: method solution of base class Integrator called. Nothing done.\n"]⟩) :=
    fun _ => rfl
  rw [e2] at h2
  simp only [Except.ok.injEq, Prod.mk.injEq] at h2
  exact h2.1.symm

/-- C12: with the log as explicit state, the default `setSensitivityTolerances`
returns with the object and the log unchanged, while both `setTolerances` overloads,
`setProblemType` and the six tuning knobs return with the object unchanged and the
log extended by exactly one string, which is one line. -/
theorem C12_silent_and_warned (w : World) :
    (∀ reltol abstol, Integrator.setSensitivityTolerances reltol abstol w = .ok ((), w)) ∧
    (∀ reltol n abstol, ∃ line, isOneLine line = true ∧
      Integrator.setTolerancesArray reltol n abstol w = .ok ((), ⟨w.self, w.log ++ [line]⟩)) ∧
    (∀ reltol abstol, ∃ line, isOneLine line = true ∧
      Integrator.setTolerances reltol abstol w = .ok ((), ⟨w.self, w.log ++ [line]⟩)) ∧
    (∀ probtype, ∃ line, isOneLine line = true ∧
      Integrator.setProblemType probtype w = .ok ((), ⟨w.self, w.log ++ [line]⟩)) ∧
    (∀ n, ∃ line, isOneLine line = true ∧
      Integrator.setMaxOrder n w = .ok ((), ⟨w.self, w.log ++ [line]⟩)) ∧
    (∀ t, ∃ line, isOneLine line = true ∧
      Integrator.setMethod t w = .ok ((), ⟨w.self, w.log ++ [line]⟩)) ∧
    (∀ t, ∃ line, isOneLine line = true ∧
      Integrator.setIterator t w = .ok ((), ⟨w.self, w.log ++ [line]⟩)) ∧
    (∀ hmax, ∃ line, isOneLine line = true ∧
      Integrator.setMaxStepSize hmax w = .ok ((), ⟨w.self, w.log ++ [line]⟩)) ∧
    (∀ hmin, ∃ line, isOneLine line = true ∧
      Integrator.setMinStepSize hmin w = .ok ((), ⟨w.self, w.log ++ [line]⟩)) ∧
    (∀ nmax, ∃ line, isOneLine line = true ∧
      Integrator.setMaxSteps nmax w = .ok ((), ⟨w.self, w.log ++ [line]⟩)) := by
  refine ⟨fun _ _ => rfl, fun _ _ _ => ⟨_, ?_, rfl⟩, fun _ _ => ⟨_, ?_, rfl⟩,
    fun _ => ⟨_, ?_, rfl⟩, fun _ => ⟨_, ?_, rfl⟩, fun _ => ⟨_, ?_, rfl⟩,
    fun _ => ⟨_, ?_, rfl⟩, fun _ => ⟨_, ?_, rfl⟩, fun _ => ⟨_, ?_, rfl⟩,
    fun _ => ⟨_, ?_, rfl⟩⟩ <;> decide

/-- C13, the code at the failing inputs: the lines the defaults `setIterator`,
`setMaxOrder` and `setMaxSteps` write hold "setInterator", "setMaxorder" and
"setMaxStep", and the name of the method called does not occur in them; the lines of
`setMethod` and `nSensParams` do hold the method name, and every line holds
"Nothing done.". -/
theorem C13_logged_names (w : World) :
    (∀ t, Integrator.setIterator t w = .ok ((), ⟨w.self, w.log ++
      [">>>> Warning: method setInterator of base class Integrator called. Nothing done.\n"]⟩)) ∧
    occursIn "setIterator"
      ">>>> Warning: method setInterator of base class Integrator called. Nothing done.\n"
      = false ∧
    (∀ n, Integrator.setMaxOrder n w = .ok ((), ⟨w.self, w.log ++
      [">>>> Warning: method setMaxorder of base class Integrator called. Nothing done.\n"]⟩)) ∧
    occursIn "setMaxOrder"
      ">>>> Warning: method setMaxorder of base class Integrator called. Nothing done.\n"
      = false ∧
    (∀ n, Integrator.setMaxSteps n w = .ok ((), ⟨w.self, w.log ++
      [">>>> Warning: method setMaxStep of base class Integrator called. Nothing done.\n"]⟩)) ∧
    occursIn "setMaxSteps"
      ">>>> Warning: method setMaxStep of base class Integrator called. Nothing done.\n"
      = false ∧
    (∀ t, Integrator.setMethod t w = .ok ((), ⟨w.self, w.log ++
      [">>>> Warning: method setMethodType of base class Integrator called. Nothing done.\n"]⟩)) ∧
    occursIn "setMethod"
      ">>>> Warning: method setMethodType of base class Integrator called. Nothing done.\n"
      = true ∧
    Integrator.nSensParams w = .ok (0, ⟨w.self, w.log ++
      [">>>> Warning: method nSensParams() of base class Integrator called. Nothing done.\n"]⟩) ∧
    occursIn "nSensParams"
      ">>>> Warning: method nSensParams() of base class Integrator called. Nothing done.\n"
      = true ∧
    (∀ msg, occursIn "Nothing done."
      (">>>> Warning: method " ++ msg ++ " of base class " ++ "Integrator called. Nothing done.\n")
      = true) := by
  refine ⟨fun _ => rfl, by decide, fun _ => rfl, by decide, fun _ => rfl, by decide,
    fun _ => rfl, by decide, rfl, by decide, ?_⟩
  intro msg
  simp only [occursIn, List.any_eq_true]
  refine ⟨"Nothing done.\n".toList, ?_, by decide⟩
  rw [List.mem_tails]
  refine ⟨(">>>> Warning: method " ++ msg ++ " of base class " ++ "Integrator called. ").toList, ?_⟩
  simp only [String.toList, String.data_append, List.append_assoc]
  rfl

/-- C14: the problem-type flags are DIAG = 1, DENSE = 2, NOJAC = 4, JAC = 8,
GMRES = 16; two different flags have no bit in common; for every subset of the flags
the bitwise OR of its members equals their sum, is at most 31, and holds a flag
exactly when the AND of the value with the flag is non-zero; two subsets with the same
OR value are the same subset. -/
theorem C14_problem_type_flags :
    (DIAG = 1 ∧ DENSE = 2 ∧ NOJAC = 4 ∧ JAC = 8 ∧ GMRES = 16) ∧
    (∀ a ∈ problemFlags, ∀ b ∈ problemFlags, a ≠ b → a &&& b = 0) ∧
    (∀ s ∈ problemFlags.sublists,
      orAll s = s.sum ∧ orAll s ≤ 31 ∧ ∀ f ∈ problemFlags, (f ∈ s ↔ orAll s &&& f ≠ 0)) ∧
    (∀ s ∈ problemFlags.sublists, ∀ t ∈ problemFlags.sublists, orAll s = orAll t → s = t) := by
  refine ⟨by decide, by decide, by decide, by decide⟩

/-- C15: when no species in the leading run (the species before the first one without
`thermo`) of any collection has a `poly` of order other than "1", the loop of
`newSpeciesThermoOpt` ends normally and each flag is 1 exactly when some species in
the leading run of some collection declares that parameterization; the leading run
of a collection with a thermo-less species is the species before the first such one,
so those still contribute and the later ones do not. -/
theorem C15_lenient_flags (c : ThermoTypes) (nodes : List XML_Node)
    (h : ∀ node ∈ nodes, ∀ s ∈ leadingRun node, badPoly s = false) :
    (∃ f, optLoop nodes Flags.zero = .ok f ∧
      newSpeciesThermoOpt c nodes = newSpeciesThermo c (typeSum c f) ∧
      f.IsBool ∧
      (f.has_nasa = 1 ↔ ∃ node ∈ nodes, ∃ s ∈ leadingRun node, declaresNASA s = true) ∧
      (f.has_shomate = 1 ↔ ∃ node ∈ nodes, ∃ s ∈ leadingRun node, declaresShomate s = true) ∧
      (f.has_simple = 1 ↔ ∃ node ∈ nodes, ∃ s ∈ leadingRun node, declaresSimple s = true)) ∧
    (∀ (node : XML_Node) (pre post : List XML_Node) (s : XML_Node),
      node.getChildren "species" = pre ++ s :: post → (∀ x ∈ pre, hasThermo x = true) →
      hasThermo s = false → leadingRun node = pre) := by
  constructor
  · have e := optLoop_leading nodes Flags.zero h
    rw [Flags.raiseBy, Flags.zero_raise] at e
    refine ⟨_, e, ?_, flagsOf_isBool _ _ _, ?_, ?_, ?_⟩
    · simp only [newSpeciesThermoOpt, e]
    · show flagOf _ = 1 ↔ _
      rw [flagsOf_any_eq_one]
      simp only [List.mem_flatMap]
      constructor
      · rintro ⟨s, ⟨n, hn, hs⟩, hp⟩
        exact ⟨n, hn, s, hs, hp⟩
      · rintro ⟨n, hn, s, hs, hp⟩
        exact ⟨s, ⟨n, hn, hs⟩, hp⟩
    · show flagOf _ = 1 ↔ _
      rw [flagsOf_any_eq_one]
      simp only [List.mem_flatMap]
      constructor
      · rintro ⟨s, ⟨n, hn, hs⟩, hp⟩
        exact ⟨n, hn, s, hs, hp⟩
      · rintro ⟨n, hn, s, hs, hp⟩
        exact ⟨s, ⟨n, hn, hs⟩, hp⟩
    · show flagOf _ = 1 ↔ _
      rw [flagsOf_any_eq_one]
      simp only [List.mem_flatMap]
      constructor
      · rintro ⟨s, ⟨n, hn, hs⟩, hp⟩
        exact ⟨n, hn, s, hs, hp⟩
      · rintro ⟨n, hn, s, hs, hp⟩
        exact ⟨s, ⟨n, hn, hs⟩, hp⟩
  · intro node pre post s hl hpre hs
    rw [leadingRun, hl]
    exact takeWhile_hasThermo_split pre post s hpre hs

/-- Witness of C15 at [[H2 with NASA, AR without thermo], [O2 with Shomate]]. -/
theorem C15_lenient_flags_witness :
    (∀ node ∈ [nasaThenBare, shomateOnly], ∀ s ∈ leadingRun node, badPoly s = false) ∧
    ∃ f, optLoop [nasaThenBare, shomateOnly] Flags.zero = .ok f ∧
      newSpeciesThermoOpt sampleTypes [nasaThenBare, shomateOnly]
        = newSpeciesThermo sampleTypes (typeSum sampleTypes f) :=
  ⟨by decide,
   let ⟨f, h1, h2, _⟩ := (C15_lenient_flags sampleTypes [nasaThenBare, shomateOnly]
      (by decide)).1
   ⟨f, h1, h2⟩⟩

/-- C16: `newSpeciesThermo(nodes)` on a list of collections has the same outcome (the
manager, or the exception with its arguments) as `newSpeciesThermo(node)` on any
single collection whose species list is the species lists of the given collections
one after the other; the collection holding just those species is one such. -/
theorem C16_strict_list_as_one (c : ThermoTypes) (nodes : List XML_Node) (node : XML_Node)
    (h : node.getChildren "species" = allSpecies nodes) :
    newSpeciesThermoNodes c nodes = newSpeciesThermoNode c node ∧
    newSpeciesThermoNodes c nodes = newSpeciesThermoNode c (mkData (allSpecies nodes)) :=
  ⟨newSpeciesThermoNodes_eq c nodes node h,
   newSpeciesThermoNodes_eq c nodes _ (getChildren_mkData_allSpecies nodes)⟩

/-- Witness of C16 at [[H2 with NASA], [O2 with Shomate]] and [H2 with NASA, O2 with
Shomate]. -/
theorem C16_strict_list_as_one_witness :
    exampleH2O2.getChildren "species" = allSpecies [nasaOnly, shomateOnly] ∧
    newSpeciesThermoNodes sampleTypes [nasaOnly, shomateOnly]
      = newSpeciesThermoNode sampleTypes exampleH2O2 :=
  ⟨rfl, (C16_strict_list_as_one sampleTypes [nasaOnly, shomateOnly] exampleH2O2 rfl).1⟩

/-- C17: when every species of every collection has a `thermo` sub-structure,
`newSpeciesThermoOpt(nodes)` and `newSpeciesThermo(nodes)` have the same outcome: the
same manager, or the same exception with the same arguments. -/
theorem C17_lenient_equals_strict (c : ThermoTypes) (nodes : List XML_Node)
    (h : ∀ node ∈ nodes, ∀ s ∈ node.getChildren "species", hasThermo s = true) :
    newSpeciesThermoOpt c nodes = newSpeciesThermoNodes c nodes := by
  simp only [newSpeciesThermoOpt, newSpeciesThermoNodes, optLoop_eq_strictLoop nodes _ h]

/-- Witness of C17 at [[H2 with NASA], [O2 with Shomate]]. -/
theorem C17_lenient_equals_strict_witness :
    (∀ node ∈ [nasaOnly, shomateOnly], ∀ s ∈ node.getChildren "species", hasThermo s = true) ∧
    newSpeciesThermoOpt sampleTypes [nasaOnly, shomateOnly]
      = newSpeciesThermoNodes sampleTypes [nasaOnly, shomateOnly] :=
  ⟨by decide, C17_lenient_equals_strict sampleTypes [nasaOnly, shomateOnly] (by decide)⟩

/-- C18: `getSpeciesThermoTypes` only raises flags: from 0/1 flags, the flags it
leaves behind, whether it returns or throws, are 0/1 and each at least its incoming
value; hence each of the three entry points either throws before it reaches the
dispatcher or calls `newSpeciesThermo(int)` on `NASA*a + SHOMATE*b + SIMPLE*c` for
some a, b, c in {0,1}. -/
theorem C18_flags_only_raised (c : ThermoTypes) :
    (∀ (node : XML_Node) (f : Flags), f.IsBool →
      (getSpeciesThermoTypes node f).2.IsBool ∧ f.le (getSpeciesThermoTypes node f).2) ∧
    (∀ node : XML_Node,
      (∃ e, (getSpeciesThermoTypes node Flags.zero).1 = .error e ∧
        newSpeciesThermoNode c node = .error e) ∨
      ∃ a b d : Bool, newSpeciesThermoNode c node
        = newSpeciesThermo c (c.NASA * flagOf a + c.SHOMATE * flagOf b + c.SIMPLE * flagOf d)) ∧
    (∀ nodes : List XML_Node,
      (∃ e, strictLoop nodes Flags.zero = .error e ∧ newSpeciesThermoNodes c nodes = .error e) ∨
      ∃ a b d : Bool, newSpeciesThermoNodes c nodes
        = newSpeciesThermo c (c.NASA * flagOf a + c.SHOMATE * flagOf b + c.SIMPLE * flagOf d)) ∧
    (∀ nodes : List XML_Node,
      (∃ e, optLoop nodes Flags.zero = .error e ∧ newSpeciesThermoOpt c nodes = .error e) ∨
      ∃ a b d : Bool, newSpeciesThermoOpt c nodes
        = newSpeciesThermo c (c.NASA * flagOf a + c.SHOMATE * flagOf b + c.SIMPLE * flagOf d)) := by
  refine ⟨?_, ?_, ?_, ?_⟩
  · intro node f hf
    obtain ⟨a, b, d, hr⟩ := speciesLoop_raise (node.getChildren "species") f
    have hr1 : (getSpeciesThermoTypes node f).2 = f.raise a b d := hr
    rw [hr1]
    exact Flags.raise_isBool f a b d hf
  · intro node
    obtain ⟨a, b, d, hr⟩ := speciesLoop_raise (node.getChildren "species") Flags.zero
    have hr1 : (getSpeciesThermoTypes node Flags.zero).2 = Flags.zero.raise a b d := hr
    cases hg : getSpeciesThermoTypes node Flags.zero with
    | mk r f1 =>
      rw [hg] at hr1
      simp only at hr1
      subst hr1
      cases r with
      | error e => exact Or.inl ⟨e, rfl, by simp only [newSpeciesThermoNode, hg]⟩
      | ok u =>
        refine Or.inr ⟨a, b, d, ?_⟩
        simp only [newSpeciesThermoNode, hg, Flags.zero_raise]
        rfl
  · intro nodes
    cases hs : strictLoop nodes Flags.zero with
    | error e => exact Or.inl ⟨e, rfl, by simp only [newSpeciesThermoNodes, hs]⟩
    | ok g =>
      obtain ⟨a, b, d, hg⟩ := strictLoop_raise nodes _ g hs
      subst hg
      refine Or.inr ⟨a, b, d, ?_⟩
      simp only [newSpeciesThermoNodes, hs, Flags.zero_raise]
      rfl
  · intro nodes
    cases hs : optLoop nodes Flags.zero with
    | error e => exact Or.inl ⟨e, rfl, by simp only [newSpeciesThermoOpt, hs]⟩
    | ok g =>
      obtain ⟨a, b, d, hg⟩ := optLoop_raise nodes _ g hs
      subst hg
      refine Or.inr ⟨a, b, d, ?_⟩
      simp only [newSpeciesThermoOpt, hs, Flags.zero_raise]
      rfl

end Cantera
